import Mathlib

/-!
Verification of the realtime slippage pool trader against its design document.

The Python sources are shallowly embedded: pure helpers become Lean functions
on `ℚ`/`ℤ` (Python numbers are modelled as exact rationals, which is faithful
for every comparison and arithmetic step the claims exercise), dictionaries
from the feed become structures with `Option` fields, and every external call
(chain client, checksum validation, signing, broadcasting) is an oracle
parameter whose outcome — a value, or an exception — is supplied explicitly.
Python exceptions are modelled with `Except Unit` / explicit `raise`
constructors: a function that catches internally stays total, a function that
can let an exception escape returns the `raise`-carrying type.
-/

namespace PoolTrader

/-- Values a loosely-typed numeric feed field may hold after decoding: a
Python number (int or float, modelled as an exact rational) or a string.
A missing key or a `None` value is modelled by wrapping in `Option`. -/
inductive Val
| num (q : ℚ)
| str (s : String)
deriving DecidableEq, Repr

/-- Python truthiness of a feed value: numbers are truthy iff nonzero,
strings iff nonempty. -/
def Val.truthy : Val → Bool
| .num q => q != 0
| .str s => s != ""

/-- Truthiness of an optional feed value (`None` and a missing key are falsy). -/
def optTruthy : Option Val → Bool
| none => false
| some v => v.truthy

/-- Trade direction, `'AtoB'` or `'BtoA'` in the source. -/
inductive Dir
| AtoB
| BtoA
deriving DecidableEq, Repr

/-- The opposite direction, as computed in `execute_strategy`
(`'BtoA' if direction == 'AtoB' else 'AtoB'`). -/
def Dir.opposite : Dir → Dir
| .AtoB => .BtoA
| .BtoA => .AtoB

/-- One price-table entry dictionary. `slippageBasisPoints` models the
`SlippageBasisPoints` key (`none` = key missing or `None`); `price` models the
`Price` key, numeric after the decode boundary normalisation; `maxAmountIn`
models the `MaxAmountIn` key, which downstream code checks with
`isinstance(·, (int, float))`, so it may still hold a string. -/
structure PriceEntry where
  slippageBasisPoints : Option ℤ
  price : Option ℚ
  maxAmountIn : Option Val
deriving DecidableEq, Repr

/-- An element of a price bucket list: the source guards most accesses with
`isinstance(price_entry, dict)`, so a bucket may contain non-dict junk.  The
`truthy` flag records the Python truthiness of the junk value, which decides
whether `atob_price.get(...) if atob_price else None` evaluates the `.get`
(raising `AttributeError`) or short-circuits to `None`. -/
inductive Entry
| dict (e : PriceEntry)
| nondict (truthy : Bool)
deriving DecidableEq, Repr

/-- The `PoolPriceTable` dictionary. A bucket is `none` when its key
(`AtoBPrices` / `BtoAPrices`) is absent or its value is not a list. -/
structure PriceTable where
  atobPrices : Option (List Entry)
  btoaPrices : Option (List Entry)
deriving DecidableEq, Repr

/-- Bucket lookup `price_table[f'{direction}Prices']`. -/
def PriceTable.bucket (pt : PriceTable) : Dir → Option (List Entry)
| .AtoB => pt.atobPrices
| .BtoA => pt.btoaPrices

/-! ## src/utils/price_utils.py -/

/-- The `SlippageBasisPoints` values collected by the loop in
`get_median_slippage_bps` (non-dict entries and entries whose slippage is
`None` are skipped). -/
def slippageValues (prices : List Entry) : List ℤ :=
  prices.filterMap fun e =>
    match e with
    | .dict pe => pe.slippageBasisPoints
    | .nondict _ => none

/-- Embedding of `get_best_slippage_bps`. -/
def get_best_slippage_bps (pt : PriceTable) (d : Dir) : Option ℤ :=
  match pt.bucket d with
  | none => none
  | some prices =>
    if prices.isEmpty then none
    else (slippageValues prices).foldl (fun best s =>
      match best with
      | none => some s
      | some b => if s < b then some s else some b) none

/-- Embedding of `get_median_slippage_bps`: collect the defined
`SlippageBasisPoints` values, sort them ascending, return the element at
index `len // 2`.  Python's `list.sort()` is modelled by `insertionSort`,
which produces the same ascending list (sorted permutations of an integer
list are unique). -/
def get_median_slippage_bps (pt : PriceTable) (d : Dir) : Option ℤ :=
  match pt.bucket d with
  | none => none
  | some prices =>
    if prices.isEmpty then none
    else
      let slippages := slippageValues prices
      if slippages.isEmpty then none
      else (slippages.insertionSort (· ≤ ·))[slippages.length / 2]?

/-- Predicate for the exact-match loop in `get_price_for_slippage`:
`isinstance(price_entry, dict) and price_entry.get('SlippageBasisPoints') == slippage_bps`. -/
def entryMatches (target : ℤ) : Entry → Bool
| .dict pe => pe.slippageBasisPoints == some target
| .nondict _ => false

/-- Embedding of `get_price_for_slippage`: first entry with an exact
slippage match; otherwise the first entry of the bucket (`prices[0]`) if the
bucket is non-empty; `None` for a missing/non-list or empty bucket. -/
def get_price_for_slippage (pt : PriceTable) (d : Dir) (slippage_bps : ℤ) :
    Option Entry :=
  match pt.bucket d with
  | none => none
  | some prices =>
    match prices.find? (entryMatches slippage_bps) with
    | some e => some e
    | none => prices.head?

/-! ## Feed data model (src/utils/protobuf_utils.py output shape) -/

/-- A currency dictionary from the feed. `decimals` models the `Decimals`
key, which `execute_trade` passes through `int(...)`. -/
structure Currency where
  smartContract : Option String
  symbol : Option String
  decimals : Option Val
deriving DecidableEq, Repr

/-- The `Pool` dictionary. `none` for a currency models a missing key or a
falsy (empty) dict, which `execute_trade` rejects with `if not currency_a`. -/
structure Pool where
  currencyA : Option Currency
  currencyB : Option Currency
  poolId : String
deriving DecidableEq, Repr

/-- The `Liquidity` dictionary's two amount fields. -/
structure Liquidity where
  amountCurrencyA : Option Val
  amountCurrencyB : Option Val
deriving DecidableEq, Repr

/-- A normalized pool event. An `Option` wrapper at `none` models a missing
key or a falsy (empty) value, matching the source's truthiness tests.
`protocolName` models `pool_event.get('Dex', {}).get('ProtocolName', '')`.
`transactionGasPrice` / `headerBaseFee` are `some` exactly when the
corresponding nested key holds an `int` (the `isinstance` check in
`extract_gas_from_stream`). -/
structure PoolEvent where
  pool : Option Pool
  liquidity : Option Liquidity
  poolPriceTable : Option PriceTable
  protocolName : String
  transactionGasPrice : Option ℤ
  headerBaseFee : Option ℤ
deriving DecidableEq, Repr

/-! ## src/utils/conversion_utils.py -/

/-- Python `int(...)` applied to a rational: truncation toward zero. -/
def truncInt (q : ℚ) : ℤ := if 0 ≤ q then ⌊q⌋ else ⌈q⌉

/-- Embedding of `convert_amount_to_smallest_unit`
(`int(Decimal(str(amount)) * Decimal(10) ** decimals)`). -/
def convert_amount_to_smallest_unit (amount : ℚ) (decimals : ℕ) : ℤ :=
  truncInt (amount * 10 ^ decimals)

/-- Embedding of `calculate_amount_out_min`, step for step. -/
def calculate_amount_out_min (amount_in : ℚ) (price : ℚ) (decimals_out : ℕ)
    (slippage_bps : ℤ) : ℤ :=
  let expected_out := amount_in * price
  let slippage_multiplier : ℚ := 1 - (slippage_bps : ℚ) / 10000
  let amount_out_min := expected_out * slippage_multiplier
  truncInt (amount_out_min * 10 ^ decimals_out)

/-- Embedding of `convert_amount_from_smallest_unit`. -/
def convert_amount_from_smallest_unit (amount_wei : ℤ) (decimals : ℕ) : ℚ :=
  (amount_wei : ℚ) / 10 ^ decimals

/-! ## src/utils/gas_utils.py -/

/-- The two configuration fields of `GasManager`. -/
structure GasManagerCfg where
  gasPriceGwei : Option ℚ
  maxGasPriceGwei : ℚ
deriving DecidableEq, Repr

/-- Embedding of `Web3.to_wei(x, 'gwei')`: multiply by `10^9`. -/
def toWeiGwei (g : ℚ) : ℚ := g * 1000000000

/-- Priority 3 of `GasManager.get_gas_price`: the network-queried price
(`.error` models the RPC query raising), capped at the configured maximum,
with the hard-coded 30-gwei fallback on failure. -/
def get_gas_price_network (cfg : GasManagerCfg) (networkGas : Except Unit ℤ) : ℚ :=
  match networkGas with
  | .ok p =>
    let maxW := toWeiGwei cfg.maxGasPriceGwei
    if (p : ℚ) > maxW then maxW else (p : ℚ)
  | .error _ => toWeiGwei 30

/-- Embedding of `GasManager.get_gas_price`.  Note the second tier guards on
Python truthiness (`if self.gas_price_gwei:`), so a configured value of `0`
falls through to the network tier. -/
def get_gas_price (cfg : GasManagerCfg) (stream_gas_price_wei : Option ℤ)
    (networkGas : Except Unit ℤ) : ℚ :=
  match stream_gas_price_wei with
  | some s =>
    let maxW := toWeiGwei cfg.maxGasPriceGwei
    if (s : ℚ) > maxW then maxW else (s : ℚ)
  | none =>
    match cfg.gasPriceGwei with
    | some g => if g != 0 then toWeiGwei g else get_gas_price_network cfg networkGas
    | none => get_gas_price_network cfg networkGas

/-- Embedding of `extract_gas_from_stream`: `TransactionHeader.GasPrice`
first, then `Header.BaseFee`. -/
def extract_gas_from_stream (ev : PoolEvent) : Option ℤ :=
  match ev.transactionGasPrice with
  | some g => some g
  | none => ev.headerBaseFee

/-! ## src/utils/transaction_utils.py -/

/-- The `WETH_ADDRESS` constant from src/utils/token_utils.py. -/
def WETH_ADDRESS : String := "0xC02aaA39b223FE8D0A0e5C4F27eAD9083C756Cc2"

/-- Python `str.lower()` restricted to the ASCII range the source compares
(addresses and protocol names). -/
def strLower (s : String) : String := ⟨s.data.map Char.toLower⟩

/-- A transaction receipt, with the fields the source reads. -/
structure Receipt where
  status : ℤ
  blockNumber : ℤ
  gasUsed : ℤ
  effectiveGasPrice : ℤ
deriving DecidableEq, Repr

/-- Outcome of the pair of historical balance queries in
`calculate_actual_amount_out`; `.fail` models any of them raising. -/
inductive BalQuery
| ok (balanceAfter balanceBefore : ℤ)
| fail
deriving DecidableEq, Repr

/-- The chain-client responses `calculate_actual_amount_out` consumes: the
native-balance pair (used when the output token is WETH) and the ERC20
`balanceOf` pair. -/
structure ReconEnv where
  ethBalances : BalQuery
  tokenBalances : BalQuery
deriving DecidableEq, Repr

/-- The balance-delta computation inside the `try` of
`calculate_actual_amount_out`: balance at the receipt block minus balance at
the preceding block, with the gas cost added back on the native path, divided
by `10^decimals_out`.  `none` models an exception during the queries. -/
def balanceDelta (receipt : Receipt) (token_out_address : String)
    (decimals_out : ℕ) (env : ReconEnv) : Option ℚ :=
  if strLower token_out_address == strLower WETH_ADDRESS then
    match env.ethBalances with
    | .ok aft bef =>
      some (((aft - bef + receipt.gasUsed * receipt.effectiveGasPrice : ℤ) : ℚ) /
        10 ^ decimals_out)
    | .fail => none
  else
    match env.tokenBalances with
    | .ok aft bef => some (((aft - bef : ℤ) : ℚ) / 10 ^ decimals_out)
    | .fail => none

/-- Embedding of `calculate_actual_amount_out`: the delta-derived amount,
unless it is non-positive or implausible (below half of `expected_out`) or
the computation raised, in which case the expected amount is substituted. -/
def calculate_actual_amount_out (receipt : Receipt) (token_out_address : String)
    (decimals_out : ℕ) (env : ReconEnv) (expected_out : ℚ) : ℚ :=
  match balanceDelta receipt token_out_address decimals_out env with
  | none => expected_out
  | some v =>
    if v ≤ 0 then expected_out
    else if v < expected_out * (1 / 2) then expected_out
    else v

/-! ## src/utils/price_utils.py — direction resolver -/

/-- Python `s.startswith(pre)`: list-level prefix test on the characters. -/
def strStartsWith (s pre : String) : Bool := decide (pre.data <+: s.data)

/-- Value of a hexadecimal digit character, `none` for anything else. -/
def hexVal? (c : Char) : Option ℕ :=
  if c.isDigit then some (c.toNat - 48)
  else if 'a' ≤ c && c ≤ 'f' then some (c.toNat - 87)
  else if 'A' ≤ c && c ≤ 'F' then some (c.toNat - 55)
  else none

/-- Parse a non-empty hex digit string. -/
def parseHexNat (cs : List Char) : Option ℕ :=
  if cs.isEmpty then none
  else cs.foldl (fun acc c => acc.bind fun n => (hexVal? c).map fun d => 16 * n + d)
    (some 0)

/-- Python `int(s, 16)` on the digit strings the feed carries (an optional
`0x` prefix followed by hex digits); `none` models `ValueError`. -/
def pyParseHex (s : String) : Option ℤ :=
  let body := if strStartsWith s "0x" then s.drop 2 else s
  (parseHexNat body.data).map Int.ofNat

/-- Numeric coercion in `_compare_liquidity_amounts`: numbers pass through,
strings go through `int(s, 16)` when `0x`-prefixed and `int(s)` otherwise;
`none` models the `ValueError` the surrounding `try` catches. -/
def coerceLiquidityVal (v : Val) : Option ℚ :=
  match v with
  | .num q => some q
  | .str s => (if strStartsWith s "0x" then pyParseHex s else s.toInt?).map
      fun n => (n : ℚ)

/-- Embedding of `_compare_liquidity_amounts`: `AtoB` iff the coerced
CurrencyA amount is ≥ the CurrencyB amount; `None` when an amount is missing
or coercion fails. -/
def compareLiquidityAmounts (liq : Liquidity) : Option Dir :=
  match liq.amountCurrencyA, liq.amountCurrencyB with
  | some va, some vb =>
    match coerceLiquidityVal va, coerceLiquidityVal vb with
    | some a, some b => some (if a ≥ b then .AtoB else .BtoA)
    | _, _ => none
  | _, _ => none

/-- The price-entry selection step of `get_best_direction_by_liquidity`:
at the caller-fixed slippage when given, otherwise at each direction's own
median slippage; `none` means a median was unavailable and the function falls
straight back to the raw liquidity comparison. -/
def selectedEntries (pt : PriceTable) (slippage_bps : Option ℤ) :
    Option (Option Entry × Option Entry) :=
  match slippage_bps with
  | none =>
    match get_median_slippage_bps pt .AtoB, get_median_slippage_bps pt .BtoA with
    | some sa, some sb =>
      some (get_price_for_slippage pt .AtoB sa, get_price_for_slippage pt .BtoA sb)
    | _, _ => none
  | some s =>
    some (get_price_for_slippage pt .AtoB s, get_price_for_slippage pt .BtoA s)

/-- The expression `p.get('MaxAmountIn') if p else None`: a truthy non-dict
entry makes `.get` raise `AttributeError` (`.error`), which the resolver does
not catch. -/
def entryGetMaxAmountIn : Option Entry → Except Unit (Option Val)
| none => .ok none
| some (.dict pe) => .ok pe.maxAmountIn
| some (.nondict true) => .error ()
| some (.nondict false) => .ok none

/-- Embedding of `get_best_direction_by_liquidity`.  The result is
`.error ()` when the uncaught `AttributeError` above propagates; otherwise
`.ok` of the returned direction.  The `try` around the ratio computation
catches only the `TypeError` raised by comparing a non-number with `0`
(Python `and` short-circuits, so a non-positive CurrencyA amount skips the
CurrencyB comparison and falls through, without an exception, to the raw
liquidity fallback). -/
def get_best_direction_by_liquidity (ev : PoolEvent) (slippage_bps : Option ℤ) :
    Except Unit (Option Dir) :=
  match ev.liquidity, ev.poolPriceTable with
  | some liq, some pt =>
    match selectedEntries pt slippage_bps with
    | none => .ok (compareLiquidityAmounts liq)
    | some (ap, bp) =>
      match entryGetMaxAmountIn ap, entryGetMaxAmountIn bp with
      | .ok am, .ok bm =>
        match am, bm with
        | some (.num amax), some (.num bmax) =>
          match liq.amountCurrencyA with
          | some (.num a) =>
            if a > 0 then
              match liq.amountCurrencyB with
              | some (.num b) =>
                if b > 0 then
                  .ok (some (if amax / a ≥ bmax / b then .AtoB else .BtoA))
                else .ok (compareLiquidityAmounts liq)
              | _ => .ok (some (if amax ≥ bmax then .AtoB else .BtoA))
            else .ok (compareLiquidityAmounts liq)
          | _ => .ok (some (if amax ≥ bmax then .AtoB else .BtoA))
        | _, _ => .ok (compareLiquidityAmounts liq)
      | _, _ => .error ()
  | _, _ => .ok none

/-! ## src/uniswap/uniswap_v2.py and uniswap_v3.py -/

/-- Outcome of one external call: a returned value, or an exception. -/
inductive Outcome (α : Type)
| val (a : α)
| raise
deriving DecidableEq, Repr

/-- Sequencing that propagates exceptions, mirroring straight-line Python. -/
def Outcome.bind {α β : Type} : Outcome α → (α → Outcome β) → Outcome β
| .raise, _ => .raise
| .val a, f => f a

/-- The chain-client call outcomes one swap attempt consumes (in program
order: balance reads, allowance, the approval transaction's lifecycle, then
the swap transaction's nonce/build/sign/broadcast). -/
structure SwapEnv where
  networkGas : Except Unit ℤ
  ethBalance : Outcome ℤ
  tokenBalance : Outcome ℤ
  allowance : Outcome ℤ
  approveNonce : Outcome ℤ
  approveBuild : Outcome Unit
  approveSign : Outcome Unit
  approveSend : Outcome String
  approveReceiptStatus : Outcome ℤ
  swapNonce : Outcome ℤ
  swapBuild : Outcome Unit
  swapSign : Outcome Unit
  swapSend : Outcome String

/-- Embedding of `check_eth_balance` (src/utils/balance_utils.py): wallet
balance must cover `amount_in + gas_price * 300000`; a balance-query
exception propagates to the caller. -/
def check_eth_balance (amount_in : ℤ) (cfg : GasManagerCfg) (stream : Option ℤ)
    (env : SwapEnv) : Outcome Bool :=
  let gas_price := get_gas_price cfg stream env.networkGas
  env.ethBalance.bind fun balance_wei =>
    .val (!((balance_wei : ℚ) < (amount_in : ℚ) + gas_price * 300000))

/-- Embedding of `check_and_approve_token` (src/utils/token_utils.py).
`checksumToken` is the `to_checksum_address` outcome for the token address
(the contract construction raises on a bad address).  Only the token-balance
read sits in a `try` that converts an exception into `False`; the later
balance/allowance/approval calls let exceptions propagate. -/
def check_and_approve_token (checksumToken : Outcome String) (amount : ℤ)
    (cfg : GasManagerCfg) (stream : Option ℤ) (env : SwapEnv) : Outcome Bool :=
  checksumToken.bind fun _ =>
  (match env.tokenBalance with
   | .raise => .val false
   | .val token_balance =>
     if token_balance < amount then .val false
     else
       let gas_price := get_gas_price cfg stream env.networkGas
       env.ethBalance.bind fun balance_wei =>
       if (balance_wei : ℚ) < gas_price * 300000 then .val false
       else
         env.allowance.bind fun allowance =>
         if allowance < amount then
           env.approveNonce.bind fun _ =>
           env.approveBuild.bind fun _ =>
           env.approveSign.bind fun _ =>
           env.approveSend.bind fun _ =>
           env.approveReceiptStatus.bind fun st =>
           .val (st == 1)
         else .val true)

/-- Result of calling an executor: a normal return (`some hash` or `None`)
or an exception escaping to the caller. -/
inductive ExecResult
| ret (r : Option String)
| raise
deriving DecidableEq, Repr

/-- The executors' catch-all `except`: any exception inside the `try`
becomes a `None` return. -/
def catchToNone : Outcome (Option String) → ExecResult
| .raise => .ret none
| .val r => .ret r

/-- The balance/approval gate both executors run at the top of their `try`:
`check_eth_balance` when the input token is WETH, `check_and_approve_token`
otherwise (`.val false` = validation failure, `.raise` = an exception the
executor's `except` will catch). -/
def swapGate (token_in_address : String) (amount_in : ℤ)
    (cfg : GasManagerCfg) (stream : Option ℤ)
    (checksum : String → Outcome String) (env : SwapEnv) : Outcome Bool :=
  let is_eth_in := strLower token_in_address == strLower WETH_ADDRESS
  if is_eth_in then check_eth_balance amount_in cfg stream env
  else check_and_approve_token (checksum token_in_address) amount_in cfg stream env

/-- The body of `UniswapV2Swapper.execute_swap`'s `try`: gas price, then the
balance/approval gate (ETH path if the input token is WETH), then
nonce/build/sign/broadcast of the swap (the three V2 build shapes differ
only in which router function is encoded, which `swapBuild` abstracts). -/
def uniswapV2_try_body (token_in_address : String) (amount_in : ℤ)
    (cfg : GasManagerCfg) (stream : Option ℤ)
    (checksum : String → Outcome String) (env : SwapEnv) :
    Outcome (Option String) :=
  (swapGate token_in_address amount_in cfg stream checksum env).bind fun ok =>
  if !ok then .val none
  else
    env.swapNonce.bind fun _ =>
    env.swapBuild.bind fun _ =>
    env.swapSign.bind fun _ =>
    env.swapSend.bind fun h => .val (some h)

/-- Embedding of `UniswapV2Swapper.execute_swap`.  The path construction
`[to_checksum_address(token_in), to_checksum_address(token_out)]` happens
BEFORE the `try`, so a checksum exception escapes to the caller. -/
def execute_swap_v2 (token_in_address token_out_address : String)
    (amount_in _amount_out_min : ℤ) (cfg : GasManagerCfg) (stream : Option ℤ)
    (checksum : String → Outcome String) (env : SwapEnv) : ExecResult :=
  match checksum token_in_address, checksum token_out_address with
  | .val _, .val _ =>
    catchToNone (uniswapV2_try_body token_in_address amount_in cfg stream checksum env)
  | _, _ => .raise

/-- Embedding of `UniswapV3Swapper.execute_swap`: the whole body, including
both checksum calls (used to build the `exactInputSingle` params), sits
inside the `try`. -/
def execute_swap_v3 (token_in_address token_out_address : String)
    (amount_in _amount_out_min _fee : ℤ) (cfg : GasManagerCfg)
    (stream : Option ℤ) (checksum : String → Outcome String) (env : SwapEnv) :
    ExecResult :=
  catchToNone (
    (swapGate token_in_address amount_in cfg stream checksum env).bind fun ok =>
    if !ok then .val none
    else
      env.swapNonce.bind fun _ =>
      (checksum token_in_address).bind fun _ =>
      (checksum token_out_address).bind fun _ =>
      env.swapBuild.bind fun _ =>
      env.swapSign.bind fun _ =>
      env.swapSend.bind fun h => .val (some h))

/-! ## src/trader.py -/

/-- Embedding of `get_token_address` (src/utils/token_utils.py): falsy or
`'0x'` addresses and non-`0x` prefixes yield `None`; otherwise the checksum
is attempted with its exception swallowed to `None`. -/
def get_token_address (c : Currency) (checksum : String → Outcome String) :
    Option String :=
  match c.smartContract with
  | none => none
  | some a =>
    if a == "" || a == "0x" then none
    else if strStartsWith a "0x" then
      match checksum a with
      | .val ca => some ca
      | .raise => none
    else none

/-- Status tag of a trade-result dictionary. -/
inductive TStatus
| confirmed
| failed
| pending
deriving DecidableEq, Repr

/-- A trade-result dictionary as built by `execute_trade`; `Option`/empty
fields model keys absent from the `failed`/`pending` variants. -/
structure TradeRes where
  txHash : String
  status : TStatus
  blockNumber : Option ℤ
  gasUsed : Option ℤ
  direction : Option Dir
  amountIn : Option ℚ
  amountOut : Option ℚ
  price : Option ℚ
  currencyA : String
  currencyB : String
  poolId : String
  protocol : String
  slippageBps : Option ℤ
deriving DecidableEq, Repr

/-- The `{'tx_hash': .., 'status': 'pending'}` result. -/
def pendingRes (h : String) : TradeRes :=
  ⟨h, .pending, none, none, none, none, none, none, "", "", "", "", none⟩

/-- The `{'tx_hash': .., 'status': 'failed'}` result. -/
def failedRes (h : String) : TradeRes :=
  ⟨h, .failed, none, none, none, none, none, none, "", "", "", "", none⟩

/-- Python `int(x)` on a feed value. -/
def pyToInt (v : Val) : Option ℤ :=
  match v with
  | .num q => some (truncInt q)
  | .str s => s.toInt?

/-- The decimals extraction in `execute_trade`: `int(info.get('Decimals', 18))`
for both sides inside a single `try` whose `except` resets both to 18. -/
def decimalsPair (tin tout : Currency) : ℤ × ℤ :=
  match (match tin.decimals with | none => some 18 | some v => pyToInt v),
        (match tout.decimals with | none => some 18 | some v => pyToInt v) with
  | some a, some b => (a, b)
  | _, _ => (18, 18)

/-- Python substring containment `sub in s`. -/
def strContains (s sub : String) : Bool := decide (sub.data <:+: s.data)

/-- The protocol-routing decision in `execute_trade`: `some true` routes to
the V2 executor, `some false` to the V3 executor, `none` is unsupported. -/
def routeProtocol (protocol : String) : Option Bool :=
  if strContains protocol "uniswap_v2" || strContains protocol "v2" then some true
  else if strContains protocol "uniswap_v3" || strContains protocol "v3" then some false
  else none

/-- The external outcomes one `execute_trade` call consumes. -/
structure TradeEnv where
  checksum : String → Outcome String
  swapEnv : SwapEnv
  receipt : Outcome Receipt
  recon : ReconEnv

/-- The fixed V3 fee used by `execute_trade`. -/
def default_fee : ℤ := 3000

/-- The confirmed result dictionary built by `execute_trade`. -/
def confirmedRes (tx_hash : String) (receipt : Receipt) (direction : Dir)
    (amount_in actual price : ℚ) (tin tout : Currency) (pool : Pool)
    (ev : PoolEvent) (slippage : ℤ) : TradeRes :=
  ⟨tx_hash, .confirmed, some receipt.blockNumber, some receipt.gasUsed,
    some direction, some amount_in, some actual, some price,
    tin.symbol.getD "", tout.symbol.getD "", pool.poolId, ev.protocolName,
    some slippage⟩

/-- The confirmation/reconciliation tail of `execute_trade` after the swap
attempt: propagate an executor exception, return `None` for a falsy hash,
wait for the receipt (exception there yields the `pending` result), then
build the confirmed or failed result. -/
def settleSwap (swapRes : ExecResult) (token_out_address : String)
    (decimals_out : ℕ) (direction : Dir) (amount_in price expected_out : ℚ)
    (tin tout : Currency) (pool : Pool) (ev : PoolEvent) (slippage : ℤ)
    (receipt : Outcome Receipt) (recon : ReconEnv) :
    Except Unit (Option TradeRes) :=
  match swapRes with
  | .raise => .error ()
  | .ret none => .ok none
  | .ret (some tx_hash) =>
    if tx_hash == "" then .ok none
    else
      match receipt with
      | .raise => .ok (some (pendingRes tx_hash))
      | .val rc =>
        if rc.status == 1 then
          let actual := calculate_actual_amount_out rc token_out_address
            decimals_out recon expected_out
          .ok (some (confirmedRes tx_hash rc direction amount_in actual price
            tin tout pool ev slippage))
        else .ok (some (failedRes tx_hash))

/-- Embedding of `DEXTrader.execute_trade`.  `.error ()` models an exception
escaping (a truthy non-dict price entry under `.get('Price', 0)`, or an
executor raising); `.ok none` is the "no trade" return. -/
def execute_trade (ev : PoolEvent) (direction : Dir) (amount_in : ℚ)
    (slippage_bps : Option ℤ) (default_slippage_bps : ℤ) (cfg : GasManagerCfg)
    (env : TradeEnv) : Except Unit (Option TradeRes) :=
  let slippage := slippage_bps.getD default_slippage_bps
  match ev.pool with
  | none => .ok none
  | some pool =>
    match pool.currencyA, pool.currencyB with
    | some currency_a, some currency_b =>
      let tio : Currency × Currency :=
        match direction with
        | .AtoB => (currency_a, currency_b)
        | .BtoA => (currency_b, currency_a)
      match get_token_address tio.1 env.checksum,
            get_token_address tio.2 env.checksum with
      | some token_in_address, some token_out_address =>
        let dp := decimalsPair tio.1 tio.2
        let amount_in_smallest := convert_amount_to_smallest_unit amount_in dp.1.toNat
        let price_entry :=
          match ev.poolPriceTable with
          | some pt => get_price_for_slippage pt direction slippage
          | none => none
        match price_entry with
        | none => .ok none
        | some (.nondict false) => .ok none
        | some (.nondict true) => .error ()
        | some (.dict pe) =>
          let price := pe.price.getD 0
          let expected_out := amount_in * price
          let amount_out_min_smallest :=
            calculate_amount_out_min amount_in price dp.2.toNat slippage
          let stream_gas := extract_gas_from_stream ev
          let protocol := strLower ev.protocolName
          match routeProtocol protocol with
          | none => .ok none
          | some useV2 =>
            let swapRes :=
              if useV2 then
                execute_swap_v2 token_in_address token_out_address
                  amount_in_smallest amount_out_min_smallest cfg stream_gas
                  env.checksum env.swapEnv
              else
                execute_swap_v3 token_in_address token_out_address
                  amount_in_smallest amount_out_min_smallest default_fee cfg
                  stream_gas env.checksum env.swapEnv
            settleSwap swapRes token_out_address dp.2.toNat direction amount_in
              price expected_out tio.1 tio.2 pool ev slippage env.receipt
              env.recon
      | _, _ => .ok none
    | _, _ => .ok none

/-! ## src/trade.py — TradingStrategy -/

/-- Position status strings: `'open'`, `'closed'`, `'close_failed'`,
`'close_error'`. -/
inductive PosStatus
| opn
| closed
| closeFailed
| closeErr
deriving DecidableEq, Repr

/-- A position dictionary as appended by `execute_strategy`; every key is
set at construction, so the fields are total. -/
structure Position where
  openBlock : ℤ
  direction : Dir
  oppositeDirection : Dir
  poolEvent : PoolEvent
  amountOut : ℚ
  poolId : String
  currencyA : String
  currencyB : String
  slippageBps : ℤ
  status : PosStatus
  closeTx : Option String
  closeBlock : Option ℤ
deriving DecidableEq, Repr

/-- The mutable fields of a `TradingStrategy` instance. -/
structure StratState where
  tradeAmount : ℚ
  slippageBps : ℤ
  tradeDirection : Option Dir
  enabled : Bool
  lastTradeTime : ℚ
  minTradeInterval : ℚ
  totalTrades : ℕ
  successfulTrades : ℕ
  failedTrades : ℕ
  closeBlocks : ℤ
  openPositions : List Position
deriving DecidableEq, Repr

/-- Number of positions whose status is `'open'`
(`len([p for p in self.open_positions if p.get('status') == 'open'])`). -/
def openCount (ps : List Position) : ℕ :=
  (ps.filter fun p => p.status == .opn).length

/-- Embedding of `TradingStrategy.should_trade`; `now` is the `time.time()`
reading. -/
def should_trade (s : StratState) (ev : PoolEvent) (now : ℚ) : Bool :=
  if !s.enabled then false
  else if 0 < openCount s.openPositions then false
  else if now - s.lastTradeTime < s.minTradeInterval then false
  else if ev.poolPriceTable.isNone then false
  else if !optTruthy (ev.liquidity.bind (·.amountCurrencyA)) ||
          !optTruthy (ev.liquidity.bind (·.amountCurrencyB)) then false
  else true

/-- External inputs of one `execute_strategy` call: the two `time.time()`
readings and the (caught) outcome of `trader.execute_trade`. -/
structure StratEnv where
  now : ℚ
  afterTime : ℚ
  tradeResult : Except Unit (Option TradeRes)

/-- The `amount_out` fallback chain in `execute_strategy`: an invalid stored
output (missing, `None`, or ≤ 1e-6) is replaced by `amount_in * price` when
the price is positive, else by the configured trade amount. -/
def fallbackAmountOut (s : StratState) (r : TradeRes) : ℚ :=
  let amount_out := r.amountOut.getD 0
  let amount_in := r.amountIn.getD s.tradeAmount
  let price := r.price.getD 0
  if amount_out ≤ 1 / 1000000 then
    if price > 0 then amount_in * price else s.tradeAmount
  else amount_out

/-- The position dictionary appended for a confirmed trade at block `bn`. -/
def mkPosition (s : StratState) (ev : PoolEvent) (direction : Dir)
    (median_slippage : ℤ) (r : TradeRes) (bn : ℤ) : Position :=
  ⟨bn, direction, direction.opposite, ev, fallbackAmountOut s r, r.poolId,
    r.currencyA, r.currencyB, r.slippageBps.getD median_slippage, .opn,
    none, none⟩

/-- Embedding of `TradingStrategy.execute_strategy`.  The returned
`Except` is `.error ()` when the uncaught `AttributeError` from direction
resolution propagates (the state is then unchanged: nothing was mutated
yet); `trader.execute_trade` raising is caught and treated as a `None`
result.  A position is appended only for a confirmed result with a truthy
block number. -/
def execute_strategy (s : StratState) (ev : PoolEvent) (env : StratEnv) :
    StratState × Except Unit (Option TradeRes) :=
  if !should_trade s ev env.now then (s, .ok none)
  else
    let dirE : Except Unit Dir :=
      match s.tradeDirection with
      | some d => .ok d
      | none =>
        match get_best_direction_by_liquidity ev none with
        | .error _ => .error ()
        | .ok none => .ok .AtoB
        | .ok (some d) => .ok d
    match dirE with
    | .error _ => (s, .error ())
    | .ok direction =>
      let median_slippage :=
        (match ev.poolPriceTable with
         | some pt => get_median_slippage_bps pt direction
         | none => none).getD s.slippageBps
      let result : Option TradeRes :=
        match env.tradeResult with
        | .ok r => r
        | .error _ => none
      let s1 := { s with totalTrades := s.totalTrades + 1,
                         lastTradeTime := env.afterTime }
      match result with
      | some r =>
        match r.status with
        | .confirmed =>
          let s2 := { s1 with successfulTrades := s1.successfulTrades + 1 }
          match r.blockNumber with
          | some bn =>
            if bn != 0 then
              ({ s2 with openPositions := s2.openPositions ++
                  [mkPosition s ev direction median_slippage r bn] },
               .ok (some r))
            else (s2, .ok (some r))
          | none => (s2, .ok (some r))
        | .failed =>
          ({ s1 with failedTrades := s1.failedTrades + 1 }, .ok (some r))
        | .pending => (s1, .ok (some r))
      | none =>
        ({ s1 with failedTrades := s1.failedTrades + 1 }, .ok none)

/-- External inputs for closing one due position: the `get_token_balance`
result (that helper catches internally, so it returns, never raises) and the
outcome of the closing `trader.execute_trade` (whose exception the
per-position `try` converts to `'close_error'`). -/
structure CloseEnv where
  tokenBalance : Option ℚ
  tradeResult : Except Unit (Option TradeRes)

/-- The negligible-amount epsilon `0.000001` used by the strategy. -/
def strategyEps : ℚ := 1 / 1000000

/-- The closing-amount determination in `check_and_close_positions`
(trade.py lines 222-240): an invalid stored amount (≤ the epsilon) falls
back to the live balance, with `none` (no valid amount) when that is also
missing or non-positive; a missing live balance falls back to the stored
amount; otherwise the minimum of the two. -/
def resolveCloseAmount (stored : ℚ) (balance : Option ℚ) : Option ℚ :=
  if stored ≤ strategyEps then
    match balance with
    | none => none
    | some b => if b ≤ 0 then none else some b
  else
    match balance with
    | none => some stored
    | some b => some (min stored b)

/-- Processing of one due position in `check_and_close_positions`: resolve
the closing amount from the stored amount and the live balance, mark
`'close_failed'` without swapping when no valid amount exists or the
resolved amount is non-positive, otherwise submit the opposite swap and
update the status from its outcome (exception from the closing trade →
`'close_error'`; a pending result leaves the status untouched).  Returns the
updated position and the amount submitted to `execute_trade` (`none` = no
swap attempted). -/
def close_step (pos : Position) (env : CloseEnv) : Position × Option ℚ :=
  match resolveCloseAmount pos.amountOut env.tokenBalance with
  | none => ({ pos with status := .closeFailed }, none)
  | some amount_out =>
    if amount_out ≤ 0 then ({ pos with status := .closeFailed }, none)
    else
      match env.tradeResult with
      | .error _ => ({ pos with status := .closeErr }, some amount_out)
      | .ok none => ({ pos with status := .closeFailed }, some amount_out)
      | .ok (some r) =>
        match r.status with
        | .confirmed =>
          ({ pos with
              status := .closed
              closeTx := some r.txHash
              closeBlock := r.blockNumber }, some amount_out)
        | .failed => ({ pos with status := .closeFailed }, some amount_out)
        | .pending => (pos, some amount_out)

/-- Due test in `check_and_close_positions`: an open position whose
`current_block - open_block >= close_blocks`. -/
def isDue (closeBlocks currentBlock : ℤ) (p : Position) : Bool :=
  p.status == .opn && closeBlocks ≤ currentBlock - p.openBlock

/-- The in-place mutation pass of `check_and_close_positions`: the k-th due
position is processed with the k-th close environment, all others pass
through untouched. -/
def closePass (closeBlocks currentBlock : ℤ) (envs : ℕ → CloseEnv) :
    List Position → ℕ → List Position
| [], _ => []
| p :: rest, k =>
  if isDue closeBlocks currentBlock p then
    (close_step p (envs k)).1 :: closePass closeBlocks currentBlock envs rest (k + 1)
  else p :: closePass closeBlocks currentBlock envs rest k

/-- Embedding of `TradingStrategy.check_and_close_positions`: nothing
happens when trading is disabled; otherwise every due open position is
processed and closed (`'closed'`) positions are dropped from tracking while
`'open'`, `'close_failed'` and `'close_error'` ones are retained. -/
def check_and_close_positions (s : StratState) (currentBlock : ℤ)
    (envs : ℕ → CloseEnv) : StratState :=
  if !s.enabled then s
  else
    let kept := (closePass s.closeBlocks currentBlock envs s.openPositions 0).filter
      fun p => p.status == .opn || p.status == .closeFailed || p.status == .closeErr
    { s with openPositions := kept }

/-- The close-amount resolution as the specification describes it, written
from the spec's words for comparison with `close_step`: a recorded amount at
or below the negligible epsilon falls back to the live balance (no swap if
that is missing or ≤ 0); a failed live query falls back to the recorded
amount; otherwise `min(recorded, live)`; and a final resolved amount ≤ 0
means no swap. `none` = no swap is submitted. -/
def resolveCloseAmountSpec (recorded : ℚ) (live : Option ℚ) : Option ℚ :=
  let resolved : Option ℚ :=
    if recorded ≤ strategyEps then
      match live with
      | none => none
      | some b => if b ≤ 0 then none else some b
    else
      match live with
      | none => some recorded
      | some b => some (min recorded b)
  match resolved with
  | none => none
  | some a => if a ≤ 0 then none else some a

/-!
## Claim theorems

Each claim of the specification is settled by one theorem below (with a
witness instantiation when the theorem carries hypotheses, and a
counterexample theorem where the claim fails on the code).
-/

/-- Python truncation agrees with the floor on non-negative arguments. -/
theorem truncInt_eq_floor {q : ℚ} (h : 0 ≤ q) : truncInt q = ⌊q⌋ := if_pos h

/-- Unfolding `calculate_amount_out_min` into the single-product form used
by the specification. -/
theorem calculate_amount_out_min_eq (a p : ℚ) (d : ℕ) (s : ℤ) :
    calculate_amount_out_min a p d s =
      truncInt (a * p * (1 - (s : ℚ) / 10000) * 10 ^ d) := rfl

/-- C9: `calculate_amount_out_min` equals
`amountIn * price * (1 - slippageBps/10000) * 10^decimals` computed exactly
and truncated to an integer; for non-negative amount and price with
slippage at most 10000 bps the truncation is the floor (never rounded up);
and the documented instance `calculate_amount_out_min(100, 2.0, 18, 50)` is
the truncation of `100 * 2.0 * 0.995 * 10^18`, namely `199 * 10^18`. -/
theorem C9_amount_out_min :
    (∀ (amount_in price : ℚ) (decimals_out : ℕ) (slippage_bps : ℤ),
      calculate_amount_out_min amount_in price decimals_out slippage_bps =
        truncInt (amount_in * price * (1 - (slippage_bps : ℚ) / 10000) *
          10 ^ decimals_out)) ∧
    (∀ (amount_in price : ℚ) (decimals_out : ℕ) (slippage_bps : ℤ),
      0 ≤ amount_in → 0 ≤ price → slippage_bps ≤ 10000 →
      calculate_amount_out_min amount_in price decimals_out slippage_bps =
        ⌊amount_in * price * (1 - (slippage_bps : ℚ) / 10000) *
          10 ^ decimals_out⌋) ∧
    calculate_amount_out_min 100 2 18 50 =
      truncInt ((100 : ℚ) * 2 * (1 - (50 : ℚ) / 10000) * 10 ^ 18) ∧
    calculate_amount_out_min 100 2 18 50 = 199 * 10 ^ 18 := by
  refine ⟨calculate_amount_out_min_eq, ?_, calculate_amount_out_min_eq 100 2 18 50, ?_⟩
  · intro a p d s ha hp hs
    rw [calculate_amount_out_min_eq]
    refine truncInt_eq_floor ?_
    have h1 : (s : ℚ) / 10000 ≤ 1 := by
      rw [div_le_one (by norm_num)]
      exact_mod_cast hs
    have h2 : (0 : ℚ) ≤ 1 - (s : ℚ) / 10000 := by linarith
    have h3 : (0 : ℚ) ≤ 10 ^ d := by positivity
    exact mul_nonneg (mul_nonneg (mul_nonneg ha hp) h2) h3
  · rw [calculate_amount_out_min_eq]
    norm_num [truncInt]

/-- Witness for C9 at the documented concrete input: the hypotheses of the
floor conjunct hold at `(100, 2, 18, 50)`. -/
theorem C9_witness :
    calculate_amount_out_min 100 2 18 50 =
      ⌊(100 : ℚ) * 2 * (1 - (50 : ℚ) / 10000) * 10 ^ 18⌋ :=
  C9_amount_out_min.2.1 100 2 18 50 (by norm_num) (by norm_num) (by norm_num)

/-- C3 counterexample: a fixed gas price of `0` gwei is configured
(`gasPriceGwei = some 0`) and no stream price is supplied, yet
`get_gas_price` returns the network-queried price (5 wei here) rather than
the configured price's wei conversion (0), because the source guards the
fixed tier with Python truthiness (`if self.gas_price_gwei:`). -/
theorem C3_counterexample :
    (⟨some 0, 200⟩ : GasManagerCfg).gasPriceGwei = some 0 ∧
    get_gas_price ⟨some 0, 200⟩ none (.ok 5) = 5 ∧
    get_gas_price ⟨some 0, 200⟩ none (.ok 5) ≠ toWeiGwei 0 := by
  refine ⟨rfl, ?_, ?_⟩ <;>
    norm_num [get_gas_price, get_gas_price_network, toWeiGwei]

/-- C3 (amended): the three-tier gas policy, with the fixed tier applying
only when the configured price is set and nonzero (truthy).  A supplied
stream price is returned unchanged when at most the wei-converted maximum
and replaced by exactly that maximum otherwise; a truthy fixed price is
converted and returned with no cap; otherwise the network price is capped at
the maximum, with the hard-coded 30 gwei fallback when the query raises.
Totality of `get_gas_price` (it is a Lean function) models that the source
never lets an exception escape. -/
theorem C3_gas_price_policy :
    (∀ (cfg : GasManagerCfg) (s : ℤ) net,
      (s : ℚ) ≤ toWeiGwei cfg.maxGasPriceGwei →
      get_gas_price cfg (some s) net = (s : ℚ)) ∧
    (∀ (cfg : GasManagerCfg) (s : ℤ) net,
      toWeiGwei cfg.maxGasPriceGwei < (s : ℚ) →
      get_gas_price cfg (some s) net = toWeiGwei cfg.maxGasPriceGwei) ∧
    (∀ (g mx : ℚ) net, g ≠ 0 →
      get_gas_price ⟨some g, mx⟩ none net = toWeiGwei g) ∧
    (∀ (cfg : GasManagerCfg) net,
      cfg.gasPriceGwei = none ∨ cfg.gasPriceGwei = some 0 →
      get_gas_price cfg none net = get_gas_price_network cfg net) ∧
    (∀ (cfg : GasManagerCfg) (p : ℤ),
      (p : ℚ) ≤ toWeiGwei cfg.maxGasPriceGwei →
      get_gas_price_network cfg (.ok p) = (p : ℚ)) ∧
    (∀ (cfg : GasManagerCfg) (p : ℤ),
      toWeiGwei cfg.maxGasPriceGwei < (p : ℚ) →
      get_gas_price_network cfg (.ok p) = toWeiGwei cfg.maxGasPriceGwei) ∧
    (∀ cfg : GasManagerCfg, get_gas_price_network cfg (.error ()) = toWeiGwei 30) := by
  refine ⟨?_, ?_, ?_, ?_, ?_, ?_, fun _ => rfl⟩
  · intro cfg s net h
    simp only [get_gas_price]
    rw [if_neg (not_lt.mpr h)]
  · intro cfg s net h
    simp only [get_gas_price]
    rw [if_pos h]
  · intro g mx net hg
    simp only [get_gas_price]
    rw [if_pos (by simpa using hg)]
  · intro cfg net h
    rcases h with h | h <;> simp only [get_gas_price, h]
    simp
  · intro cfg p h
    simp only [get_gas_price_network]
    rw [if_neg (not_lt.mpr h)]
  · intro cfg p h
    simp only [get_gas_price_network]
    rw [if_pos h]

/-- Witness for C3 at concrete inputs: a stream price within the cap is
returned unchanged, a stream price above the cap is replaced by the cap, a
truthy fixed price is returned uncapped even above the maximum, and the
zero-configured instance falls to the network tier. -/
theorem C3_witness :
    get_gas_price ⟨none, 200⟩ (some 7) (.error ()) = 7 ∧
    get_gas_price ⟨none, 200⟩ (some 300000000000) (.error ()) = toWeiGwei 200 ∧
    get_gas_price ⟨some 500, 200⟩ none (.error ()) = toWeiGwei 500 ∧
    get_gas_price ⟨some 0, 200⟩ none (.error ()) =
      get_gas_price_network ⟨some 0, 200⟩ (.error ()) := by
  refine ⟨C3_gas_price_policy.1 ⟨none, 200⟩ 7 (.error ()) (by norm_num [toWeiGwei]),
    C3_gas_price_policy.2.1 ⟨none, 200⟩ 300000000000 (.error ())
      (by norm_num [toWeiGwei]),
    C3_gas_price_policy.2.2.1 500 200 (.error ()) (by norm_num),
    C3_gas_price_policy.2.2.2.1 ⟨some 0, 200⟩ (.error ()) (Or.inr rfl)⟩

/-- C6: the reconciler returns the balance-delta-derived amount exactly when
it is positive and at least half of the predicted output, and the predicted
output in every other case (non-positive delta, implausibly small delta, or
a failed computation); the delta is the balance at the receipt block minus
the balance at the preceding block over `10^decimals`, with the gas cost
added back on the native-asset path; and the documented instance — predicted
`10.0`, observed delta `0.0002` — reports `10.0`. -/
theorem C6_reconciliation :
    (∀ (receipt : Receipt) (addr : String) (dec : ℕ) (env : ReconEnv)
        (expected v : ℚ),
      balanceDelta receipt addr dec env = some v →
      calculate_actual_amount_out receipt addr dec env expected =
        if 0 < v ∧ expected * (1 / 2) ≤ v then v else expected) ∧
    (∀ (receipt : Receipt) (addr : String) (dec : ℕ) (env : ReconEnv)
        (expected : ℚ),
      balanceDelta receipt addr dec env = none →
      calculate_actual_amount_out receipt addr dec env expected = expected) ∧
    (∀ (receipt : Receipt) (addr : String) (dec : ℕ) (aft bef : ℤ)
        (ethB : BalQuery),
      strLower addr ≠ strLower WETH_ADDRESS →
      balanceDelta receipt addr dec ⟨ethB, .ok aft bef⟩ =
        some (((aft - bef : ℤ) : ℚ) / 10 ^ dec)) ∧
    (∀ (receipt : Receipt) (addr : String) (dec : ℕ) (aft bef : ℤ)
        (tokB : BalQuery),
      strLower addr = strLower WETH_ADDRESS →
      balanceDelta receipt addr dec ⟨.ok aft bef, tokB⟩ =
        some (((aft - bef + receipt.gasUsed * receipt.effectiveGasPrice : ℤ) : ℚ) /
          10 ^ dec)) ∧
    (balanceDelta ⟨1, 5, 0, 0⟩ "0xToken" 4 ⟨.fail, .ok 2 0⟩ = some (2 / 10 ^ 4) ∧
     calculate_actual_amount_out ⟨1, 5, 0, 0⟩ "0xToken" 4 ⟨.fail, .ok 2 0⟩ 10 = 10) := by
  refine ⟨?_, ?_, ?_, ?_, ?_, ?_⟩
  · intro receipt addr dec env expected v h
    simp only [calculate_actual_amount_out, h]
    by_cases h1 : v ≤ 0
    · rw [if_pos h1, if_neg]
      rintro ⟨h2, -⟩
      linarith
    · rw [if_neg h1]
      by_cases h2 : v < expected * (1 / 2)
      · rw [if_pos h2, if_neg]
        rintro ⟨-, h3⟩
        linarith
      · rw [if_neg h2, if_pos ⟨lt_of_not_le h1, le_of_not_lt h2⟩]
  · intro receipt addr dec env expected h
    simp only [calculate_actual_amount_out, h]
  · intro receipt addr dec aft bef ethB h
    simp only [balanceDelta]
    rw [if_neg (by simpa using h)]
  · intro receipt addr dec aft bef tokB h
    simp only [balanceDelta]
    rw [if_pos (by simpa using h)]
  · simp only [balanceDelta]
    rw [if_neg (by decide)]
    norm_num
  · simp only [calculate_actual_amount_out, balanceDelta]
    rw [if_neg (by decide)]
    norm_num

/-- Witness for C6: the general delta rule applied at the documented
concrete input (`0.0002` observed against `10.0` predicted is discarded). -/
theorem C6_witness :
    calculate_actual_amount_out ⟨1, 5, 0, 0⟩ "0xToken" 4 ⟨.fail, .ok 2 0⟩ 10 =
      if 0 < (2 / 10 ^ 4 : ℚ) ∧ (10 : ℚ) * (1 / 2) ≤ 2 / 10 ^ 4 then
        (2 / 10 ^ 4 : ℚ) else 10 :=
  C6_reconciliation.1 ⟨1, 5, 0, 0⟩ "0xToken" 4 ⟨.fail, .ok 2 0⟩ 10 (2 / 10 ^ 4)
    (by simp only [balanceDelta]; rw [if_neg (by decide)]; norm_num)

/-- A successful `find?` returns the first satisfying element: the list
splits around it with no earlier satisfying element. -/
theorem find?_eq_some_split {α : Type} (p : α → Bool) :
    ∀ (l : List α) (a : α), l.find? p = some a →
      p a = true ∧ ∃ l₁ l₂, l = l₁ ++ a :: l₂ ∧ ∀ x ∈ l₁, p x = false := by
  intro l
  induction l with
  | nil => intro a h; simp at h
  | cons x xs ih =>
    intro a h
    by_cases hx : p x
    · rw [List.find?_cons_of_pos _ hx] at h
      cases h
      exact ⟨hx, [], xs, rfl, by simp⟩
    · rw [List.find?_cons_of_neg _ (by simpa using hx)] at h
      obtain ⟨hpa, l₁, l₂, hsplit, hall⟩ := ih a h
      refine ⟨hpa, x :: l₁, l₂, by rw [hsplit, List.cons_append], ?_⟩
      intro y hy
      rcases List.mem_cons.mp hy with rfl | hy
      · simpa using hx
      · exact hall y hy

/-- An entry passing `entryMatches` is a dict whose slippage equals the
target. -/
theorem entryMatches_spec {t : ℤ} {e : Entry} (h : entryMatches t e = true) :
    ∃ pe, e = .dict pe ∧ pe.slippageBasisPoints = some t := by
  cases e with
  | dict pe =>
    refine ⟨pe, rfl, ?_⟩
    simpa [entryMatches] using h
  | nondict b => simp [entryMatches] at h

/-- C8: `get_price_for_slippage` returns the first entry whose
`SlippageBasisPoints` equals the target when one exists; the first entry of
the bucket (whatever its slippage) when the bucket is non-empty but has no
exact match; and `None` when the bucket is absent or empty. -/
theorem C8_price_for_slippage :
    (∀ (pt : PriceTable) (d : Dir) (t : ℤ) ps, pt.bucket d = some ps →
      (∃ e ∈ ps, entryMatches t e = true) →
      ∃ e, get_price_for_slippage pt d t = some e ∧
        (∃ pe, e = .dict pe ∧ pe.slippageBasisPoints = some t) ∧
        ∃ l₁ l₂, ps = l₁ ++ e :: l₂ ∧ ∀ x ∈ l₁, entryMatches t x = false) ∧
    (∀ (pt : PriceTable) (d : Dir) (t : ℤ) ps, pt.bucket d = some ps →
      (∀ x ∈ ps, entryMatches t x = false) →
      get_price_for_slippage pt d t = ps.head?) ∧
    (∀ (pt : PriceTable) (d : Dir) (t : ℤ), pt.bucket d = none →
      get_price_for_slippage pt d t = none) ∧
    (∀ (pt : PriceTable) (d : Dir) (t : ℤ), pt.bucket d = some [] →
      get_price_for_slippage pt d t = none) := by
  refine ⟨?_, ?_, ?_, ?_⟩
  · intro pt d t ps hb hex
    have hsome : (ps.find? (entryMatches t)).isSome := by
      rw [List.find?_isSome]
      obtain ⟨e, he, hpe⟩ := hex
      exact ⟨e, he, hpe⟩
    obtain ⟨e, he⟩ := Option.isSome_iff_exists.mp hsome
    obtain ⟨hpe, l₁, l₂, hsplit, hall⟩ := find?_eq_some_split (entryMatches t) ps e he
    refine ⟨e, ?_, entryMatches_spec hpe, l₁, l₂, hsplit, hall⟩
    simp only [get_price_for_slippage, hb, he]
  · intro pt d t ps hb hnone
    have : ps.find? (entryMatches t) = none :=
      List.find?_eq_none.mpr fun x hx => by simp [hnone x hx]
    simp only [get_price_for_slippage, hb, this]
  · intro pt d t hb
    simp only [get_price_for_slippage, hb]
  · intro pt d t hb
    simp only [get_price_for_slippage, hb, List.find?_nil, List.head?_nil]

/-- Witness for C8 on a concrete table: the bucket
`[nondict, {slippage 30}, {slippage 50}, {slippage 50, price 7}]` with
target 50 yields the first matching entry, and with target 99 (no match)
yields the bucket's first element. -/
theorem C8_witness :
    (∃ e, get_price_for_slippage
        ⟨some [.nondict true, .dict ⟨some 30, none, none⟩,
          .dict ⟨some 50, none, none⟩, .dict ⟨some 50, some 7, none⟩], none⟩
        .AtoB 50 = some e ∧
      (∃ pe, e = .dict pe ∧ pe.slippageBasisPoints = some 50)) ∧
    get_price_for_slippage
        ⟨some [.nondict true, .dict ⟨some 30, none, none⟩], none⟩ .AtoB 99 =
      some (.nondict true) := by
  constructor
  · obtain ⟨e, h1, h2, -⟩ := C8_price_for_slippage.1
      ⟨some [.nondict true, .dict ⟨some 30, none, none⟩,
        .dict ⟨some 50, none, none⟩, .dict ⟨some 50, some 7, none⟩], none⟩
      .AtoB 50 _ rfl ⟨.dict ⟨some 50, none, none⟩, by decide, by decide⟩
    exact ⟨e, h1, h2⟩
  · have h := C8_price_for_slippage.2.1
      ⟨some [.nondict true, .dict ⟨some 30, none, none⟩], none⟩ .AtoB 99 _ rfl
      (by decide)
    simpa using h

/-- C4: whenever the bucket holds at least one defined
`SlippageBasisPoints` value, `get_median_slippage_bps` returns the element
at index `floor(n/2)` of the (unique) ascending sorting of those values —
stated against every sorted permutation — and the result is a member of the
value list, bounded by its minimum and maximum. -/
theorem C4_median :
    ∀ (pt : PriceTable) (d : Dir) ps, pt.bucket d = some ps →
      slippageValues ps ≠ [] →
      ∃ m, get_median_slippage_bps pt d = some m ∧
        (∀ l : List ℤ, l.Perm (slippageValues ps) → l.Sorted (· ≤ ·) →
          l[(slippageValues ps).length / 2]? = some m) ∧
        m ∈ slippageValues ps ∧
        (slippageValues ps).minimum ≤ (m : WithTop ℤ) ∧
        (m : WithBot ℤ) ≤ (slippageValues ps).maximum := by
  intro pt d ps hb hne
  have hps : ps ≠ [] := by
    intro h
    exact hne (by simp [h, slippageValues])
  have h1 : ps.isEmpty = false := by simpa [List.isEmpty_iff] using hps
  have h2 : (slippageValues ps).isEmpty = false := by
    simpa [List.isEmpty_iff] using hne
  have hperm : ((slippageValues ps).insertionSort (· ≤ ·)).Perm (slippageValues ps) :=
    List.perm_insertionSort _ _
  have hsorted : ((slippageValues ps).insertionSort (· ≤ ·)).Sorted (· ≤ ·) :=
    List.sorted_insertionSort _ _
  have hpos : 0 < (slippageValues ps).length := List.length_pos.mpr hne
  have hk : (slippageValues ps).length / 2 <
      ((slippageValues ps).insertionSort (· ≤ ·)).length := by
    rw [hperm.length_eq]
    exact Nat.div_lt_self hpos (by norm_num)
  have hmed : get_median_slippage_bps pt d =
      ((slippageValues ps).insertionSort (· ≤ ·))[(slippageValues ps).length / 2]? := by
    simp only [get_median_slippage_bps, hb, h1, h2, Bool.false_eq_true, if_false]
  have hmem : ((slippageValues ps).insertionSort (· ≤ ·)).get
      ⟨(slippageValues ps).length / 2, hk⟩ ∈ slippageValues ps :=
    hperm.subset (List.get_mem _ _ hk)
  refine ⟨((slippageValues ps).insertionSort (· ≤ ·)).get
      ⟨(slippageValues ps).length / 2, hk⟩, ?_, ?_, hmem,
    List.minimum_le_of_mem' hmem, List.le_maximum_of_mem' hmem⟩
  · rw [hmed, List.getElem?_eq_getElem hk]
    rfl
  · intro l hP hS
    have hl : l = (slippageValues ps).insertionSort (· ≤ ·) :=
      List.eq_of_perm_of_sorted (hP.trans hperm.symm) hS hsorted
    rw [hl, List.getElem?_eq_getElem hk]
    rfl

/-- Witness for C4: on the bucket with slippage values `[50, 10, 30]`
(one junk entry interleaved), the median is `30` — the element at index 1 of
the ascending sorting `[10, 30, 50]` — and it is a member of the values. -/
theorem C4_witness :
    get_median_slippage_bps
      ⟨some [.dict ⟨some 50, none, none⟩, .dict ⟨some 10, none, none⟩,
        .nondict false, .dict ⟨some 30, none, none⟩], none⟩ .AtoB = some 30 ∧
    30 ∈ slippageValues [.dict ⟨some 50, none, none⟩, .dict ⟨some 10, none, none⟩,
        .nondict false, .dict ⟨some 30, none, none⟩] := by
  obtain ⟨m, hm, huniq, hmem, -, -⟩ := C4_median
    ⟨some [.dict ⟨some 50, none, none⟩, .dict ⟨some 10, none, none⟩,
      .nondict false, .dict ⟨some 30, none, none⟩], none⟩ .AtoB _ rfl (by decide)
  have h30 := huniq [10, 30, 50] (by decide) (by decide)
  have hlen : (slippageValues [.dict ⟨some 50, none, none⟩,
      .dict ⟨some 10, none, none⟩, .nondict false,
      .dict ⟨some 30, none, none⟩]).length = 3 := by decide
  rw [hlen] at h30
  have hm30 : m = 30 := by simpa using h30.symm
  rw [hm30] at hm hmem
  exact ⟨hm, hmem⟩

/-- C5: with liquidity and price table present and numeric `MaxAmountIn`
values selected for both directions, the resolver picks `AtoB` exactly when
`maxAmountIn(AtoB)/liquidityA >= maxAmountIn(BtoA)/liquidityB` (ties to
`AtoB`) whenever both liquidity amounts are numeric and strictly positive;
and when the ratio arithmetic raises (a non-numeric CurrencyA amount, or a
positive CurrencyA amount with a non-numeric CurrencyB amount), it picks
`AtoB` exactly when `maxAmountIn(AtoB) >= maxAmountIn(BtoA)`. -/
theorem C5_direction :
    ∀ (ev : PoolEvent) (sl : Option ℤ) liq pt ap bp ea eb (amax bmax : ℚ),
      ev.liquidity = some liq → ev.poolPriceTable = some pt →
      selectedEntries pt sl = some (ap, bp) →
      ap = some (.dict ea) → ea.maxAmountIn = some (.num amax) →
      bp = some (.dict eb) → eb.maxAmountIn = some (.num bmax) →
      (∀ (a b : ℚ), liq.amountCurrencyA = some (.num a) → 0 < a →
          liq.amountCurrencyB = some (.num b) → 0 < b →
          (get_best_direction_by_liquidity ev sl = .ok (some .AtoB) ↔
            bmax / b ≤ amax / a) ∧
          (get_best_direction_by_liquidity ev sl = .ok (some .BtoA) ↔
            ¬ bmax / b ≤ amax / a)) ∧
      (((∀ q : ℚ, liq.amountCurrencyA ≠ some (.num q)) ∨
          (∃ a : ℚ, liq.amountCurrencyA = some (.num a) ∧ 0 < a ∧
            ∀ q : ℚ, liq.amountCurrencyB ≠ some (.num q))) →
        (get_best_direction_by_liquidity ev sl = .ok (some .AtoB) ↔
          bmax ≤ amax) ∧
        (get_best_direction_by_liquidity ev sl = .ok (some .BtoA) ↔
          ¬ bmax ≤ amax)) := by
  intro ev sl liq pt ap bp ea eb amax bmax hliq hpt hsel hap hea hbp heb
  constructor
  · intro a b ha hpa hb hpb
    have hred : get_best_direction_by_liquidity ev sl =
        .ok (some (if amax / a ≥ bmax / b then .AtoB else .BtoA)) := by
      simp only [get_best_direction_by_liquidity, hliq, hpt, hsel, hap, hbp,
        entryGetMaxAmountIn, hea, heb, ha, hb, if_pos hpa, if_pos hpb]
    rw [hred]
    by_cases hc : bmax / b ≤ amax / a
    · rw [if_pos hc]
      simp [hc]
    · rw [if_neg hc]
      simp [hc]
  · intro hfail
    have hred : get_best_direction_by_liquidity ev sl =
        .ok (some (if amax ≥ bmax then .AtoB else .BtoA)) := by
      rcases hfail with hA | ⟨a, ha, hpa, hB⟩
      · rcases hcase : liq.amountCurrencyA with - | va
        · simp only [get_best_direction_by_liquidity, hliq, hpt, hsel, hap, hbp,
            entryGetMaxAmountIn, hea, heb, hcase]
        · rcases va with q | s
          · exact absurd hcase (hA q)
          · simp only [get_best_direction_by_liquidity, hliq, hpt, hsel, hap,
              hbp, entryGetMaxAmountIn, hea, heb, hcase]
      · rcases hcase : liq.amountCurrencyB with - | vb
        · simp only [get_best_direction_by_liquidity, hliq, hpt, hsel, hap, hbp,
            entryGetMaxAmountIn, hea, heb, ha, hcase, if_pos hpa]
        · rcases vb with q | s
          · exact absurd hcase (hB q)
          · simp only [get_best_direction_by_liquidity, hliq, hpt, hsel, hap,
              hbp, entryGetMaxAmountIn, hea, heb, ha, hcase, if_pos hpa]
    rw [hred]
    by_cases hc : bmax ≤ amax
    · rw [if_pos hc]
      simp [hc]
    · rw [if_neg hc]
      simp [hc]

/-- Witness for C5 on a concrete event: liquidity `A = 100`, `B = 50`,
`MaxAmountIn` 30 (AtoB) and 10 (BtoA) at the fixed 50-bps level; the
utilization ratios are `0.3 >= 0.2`, so the resolver returns `AtoB`. -/
theorem C5_witness :
    get_best_direction_by_liquidity
      ⟨none, some ⟨some (.num 100), some (.num 50)⟩,
        some ⟨some [.dict ⟨some 50, some 2, some (.num 30)⟩],
          some [.dict ⟨some 50, some 1, some (.num 10)⟩]⟩, "", none, none⟩
      (some 50) = .ok (some .AtoB) := by
  have h := (C5_direction
    ⟨none, some ⟨some (.num 100), some (.num 50)⟩,
      some ⟨some [.dict ⟨some 50, some 2, some (.num 30)⟩],
        some [.dict ⟨some 50, some 1, some (.num 10)⟩]⟩, "", none, none⟩
    (some 50) ⟨some (.num 100), some (.num 50)⟩
    ⟨some [.dict ⟨some 50, some 2, some (.num 30)⟩],
      some [.dict ⟨some 50, some 1, some (.num 10)⟩]⟩
    (some (.dict ⟨some 50, some 2, some (.num 30)⟩))
    (some (.dict ⟨some 50, some 1, some (.num 10)⟩))
    ⟨some 50, some 2, some (.num 30)⟩ ⟨some 50, some 1, some (.num 10)⟩
    30 10 rfl rfl rfl rfl rfl rfl rfl).1 100 50 rfl (by norm_num) rfl
    (by norm_num)
  exact h.1.mpr (by norm_num)

/-- A string containing `"uniswap_v2"` contains `"v2"`. -/
theorem strContains_v2_of_uniswap {p : String}
    (h : strContains p "uniswap_v2" = true) : strContains p "v2" = true := by
  simp only [strContains, decide_eq_true_eq] at h ⊢
  exact List.IsInfix.trans (by decide) h

/-- A string containing `"uniswap_v3"` contains `"v3"`. -/
theorem strContains_v3_of_uniswap {p : String}
    (h : strContains p "uniswap_v3" = true) : strContains p "v3" = true := by
  simp only [strContains, decide_eq_true_eq] at h ⊢
  exact List.IsInfix.trans (by decide) h

/-- The V2 guard `'uniswap_v2' in protocol or 'v2' in protocol` collapses to
`'v2' in protocol`. -/
theorem routeProtocol_v2_guard (p : String) :
    (strContains p "uniswap_v2" || strContains p "v2") = strContains p "v2" := by
  by_cases h2 : strContains p "v2" = true
  · simp [h2]
  · simp only [h2, Bool.or_false]
    by_cases hu : strContains p "uniswap_v2" = true
    · exact absurd (strContains_v2_of_uniswap hu) h2
    · simp [Bool.not_eq_true] at hu
      simp [hu]

/-- The V3 guard collapses likewise. -/
theorem routeProtocol_v3_guard (p : String) :
    (strContains p "uniswap_v3" || strContains p "v3") = strContains p "v3" := by
  by_cases h3 : strContains p "v3" = true
  · simp [h3]
  · simp only [h3, Bool.or_false]
    by_cases hu : strContains p "uniswap_v3" = true
    · exact absurd (strContains_v3_of_uniswap hu) h3
    · simp [Bool.not_eq_true] at hu
      simp [hu]

/-- Characterisation of the routing decision by substring containment. -/
theorem routeProtocol_spec (p : String) :
    (routeProtocol p = some true ↔ strContains p "v2" = true) ∧
    (routeProtocol p = some false ↔
      (strContains p "v3" = true ∧ strContains p "v2" = false)) ∧
    (routeProtocol p = none ↔
      (strContains p "v2" = false ∧ strContains p "v3" = false)) := by
  unfold routeProtocol
  rw [routeProtocol_v2_guard, routeProtocol_v3_guard]
  by_cases h2 : strContains p "v2" = true
  · simp [h2]
  · simp only [Bool.not_eq_true] at h2
    by_cases h3 : strContains p "v3" = true
    · simp [h2, h3]
    · simp only [Bool.not_eq_true] at h3
      simp [h2, h3]

/-- Dispatch behaviour of `execute_trade` once an event passes all the
pre-routing validation (pool and currencies present, both token addresses
resolved, a dict price entry found at the resolved slippage): an unsupported
protocol returns `None`, a V2-routed protocol runs the V2 executor and a
V3-routed protocol runs the V3 executor, each settled by `settleSwap`. -/
theorem execute_trade_routing :
    ∀ (ev : PoolEvent) (direction : Dir) (amount_in : ℚ) (sl : Option ℤ)
      (dsl : ℤ) (cfg : GasManagerCfg) (env : TradeEnv) pool ca cb tin tout
      tin_addr tout_addr pt (pe : PriceEntry),
      ev.pool = some pool → pool.currencyA = some ca → pool.currencyB = some cb →
      (match direction with
        | Dir.AtoB => (ca, cb)
        | Dir.BtoA => (cb, ca)) = (tin, tout) →
      get_token_address tin env.checksum = some tin_addr →
      get_token_address tout env.checksum = some tout_addr →
      ev.poolPriceTable = some pt →
      get_price_for_slippage pt direction (sl.getD dsl) = some (.dict pe) →
      (routeProtocol (strLower ev.protocolName) = none →
        execute_trade ev direction amount_in sl dsl cfg env = .ok none) ∧
      (routeProtocol (strLower ev.protocolName) = some true →
        execute_trade ev direction amount_in sl dsl cfg env =
          settleSwap
            (execute_swap_v2 tin_addr tout_addr
              (convert_amount_to_smallest_unit amount_in
                (decimalsPair tin tout).1.toNat)
              (calculate_amount_out_min amount_in (pe.price.getD 0)
                (decimalsPair tin tout).2.toNat (sl.getD dsl))
              cfg (extract_gas_from_stream ev) env.checksum env.swapEnv)
            tout_addr (decimalsPair tin tout).2.toNat direction amount_in
            (pe.price.getD 0) (amount_in * pe.price.getD 0) tin tout pool ev
            (sl.getD dsl) env.receipt env.recon) ∧
      (routeProtocol (strLower ev.protocolName) = some false →
        execute_trade ev direction amount_in sl dsl cfg env =
          settleSwap
            (execute_swap_v3 tin_addr tout_addr
              (convert_amount_to_smallest_unit amount_in
                (decimalsPair tin tout).1.toNat)
              (calculate_amount_out_min amount_in (pe.price.getD 0)
                (decimalsPair tin tout).2.toNat (sl.getD dsl))
              default_fee cfg (extract_gas_from_stream ev) env.checksum
              env.swapEnv)
            tout_addr (decimalsPair tin tout).2.toNat direction amount_in
            (pe.price.getD 0) (amount_in * pe.price.getD 0) tin tout pool ev
            (sl.getD dsl) env.receipt env.recon) := by
  intro ev direction amount_in sl dsl cfg env pool ca cb tin tout tin_addr
    tout_addr pt pe hpool hca hcb hpair htin htout hpt hpe
  cases direction <;>
    (simp only at hpair
     cases hpair) <;>
    refine ⟨?_, ?_, ?_⟩ <;> intro hroute <;>
    simp only [execute_trade, hpool, hca, hcb, htin, htout, hpt, hpe, hroute,
      Bool.false_eq_true, if_true, if_false, reduceIte]

/-- C10: protocol routing is case-insensitive substring matching with V2
precedence — a lowercased protocol name containing `"v2"` (which
`"uniswap_v2"` implies) routes to the V2 executor, one containing `"v3"`
but not `"v2"` routes to the V3 executor, and any other name makes
`execute_trade` return `None` with no swap attempted. -/
theorem C10_protocol_routing :
    (∀ p : String, routeProtocol p = some true ↔ strContains p "v2" = true) ∧
    (∀ p : String, routeProtocol p = some false ↔
      (strContains p "v3" = true ∧ strContains p "v2" = false)) ∧
    (∀ p : String, routeProtocol p = none ↔
      (strContains p "v2" = false ∧ strContains p "v3" = false)) ∧
    (∀ (ev : PoolEvent) (direction : Dir) (amount_in : ℚ) (sl : Option ℤ)
      (dsl : ℤ) (cfg : GasManagerCfg) (env : TradeEnv) pool ca cb tin tout
      tin_addr tout_addr pt (pe : PriceEntry),
      ev.pool = some pool → pool.currencyA = some ca → pool.currencyB = some cb →
      (match direction with
        | Dir.AtoB => (ca, cb)
        | Dir.BtoA => (cb, ca)) = (tin, tout) →
      get_token_address tin env.checksum = some tin_addr →
      get_token_address tout env.checksum = some tout_addr →
      ev.poolPriceTable = some pt →
      get_price_for_slippage pt direction (sl.getD dsl) = some (.dict pe) →
      (strContains (strLower ev.protocolName) "v2" = false →
        strContains (strLower ev.protocolName) "v3" = false →
        execute_trade ev direction amount_in sl dsl cfg env = .ok none) ∧
      (strContains (strLower ev.protocolName) "v2" = true →
        execute_trade ev direction amount_in sl dsl cfg env =
          settleSwap
            (execute_swap_v2 tin_addr tout_addr
              (convert_amount_to_smallest_unit amount_in
                (decimalsPair tin tout).1.toNat)
              (calculate_amount_out_min amount_in (pe.price.getD 0)
                (decimalsPair tin tout).2.toNat (sl.getD dsl))
              cfg (extract_gas_from_stream ev) env.checksum env.swapEnv)
            tout_addr (decimalsPair tin tout).2.toNat direction amount_in
            (pe.price.getD 0) (amount_in * pe.price.getD 0) tin tout pool ev
            (sl.getD dsl) env.receipt env.recon) ∧
      (strContains (strLower ev.protocolName) "v3" = true →
        strContains (strLower ev.protocolName) "v2" = false →
        execute_trade ev direction amount_in sl dsl cfg env =
          settleSwap
            (execute_swap_v3 tin_addr tout_addr
              (convert_amount_to_smallest_unit amount_in
                (decimalsPair tin tout).1.toNat)
              (calculate_amount_out_min amount_in (pe.price.getD 0)
                (decimalsPair tin tout).2.toNat (sl.getD dsl))
              default_fee cfg (extract_gas_from_stream ev) env.checksum
              env.swapEnv)
            tout_addr (decimalsPair tin tout).2.toNat direction amount_in
            (pe.price.getD 0) (amount_in * pe.price.getD 0) tin tout pool ev
            (sl.getD dsl) env.receipt env.recon)) := by
  refine ⟨fun p => (routeProtocol_spec p).1, fun p => (routeProtocol_spec p).2.1,
    fun p => (routeProtocol_spec p).2.2, ?_⟩
  intro ev direction amount_in sl dsl cfg env pool ca cb tin tout tin_addr
    tout_addr pt pe hpool hca hcb hpair htin htout hpt hpe
  obtain ⟨hnone, hv2, hv3⟩ := execute_trade_routing ev direction amount_in sl
    dsl cfg env pool ca cb tin tout tin_addr tout_addr pt pe hpool hca hcb
    hpair htin htout hpt hpe
  refine ⟨fun h2 h3 => hnone ?_, fun h2 => hv2 ?_, fun h3 h2 => hv3 ?_⟩
  · exact (routeProtocol_spec _).2.2.mpr ⟨h2, h3⟩
  · exact (routeProtocol_spec _).1.mpr h2
  · exact (routeProtocol_spec _).2.1.mpr ⟨h3, h2⟩

/-- Witness for C10: a fully-validated event whose protocol name is
`"Balancer"` (contains neither `"v2"` nor `"v3"` once lowercased) yields
`None` from `execute_trade`, and the routing decision on
`"pancakeswap_v2"` is the V2 executor even though it is not Uniswap. -/
theorem C10_witness :
    execute_trade
      ⟨some ⟨some ⟨some "0xaaaa", some "A", some (.num 18)⟩,
        some ⟨some "0xbbbb", some "B", some (.num 18)⟩, "pid"⟩,
        none, some ⟨some [.dict ⟨some 50, some 2, none⟩], none⟩, "Balancer",
        none, none⟩
      .AtoB 1 none 50 ⟨none, 200⟩
      ⟨fun s => .val s,
        ⟨.ok 1, .val 0, .val 0, .val 0, .val 0, .val (), .val (), .val "a",
          .val 1, .val 0, .val (), .val (), .val "h"⟩, .raise, ⟨.fail, .fail⟩⟩ =
      .ok none ∧
    routeProtocol "pancakeswap_v2" = some true := by
  constructor
  · exact (C10_protocol_routing.2.2.2
      ⟨some ⟨some ⟨some "0xaaaa", some "A", some (.num 18)⟩,
        some ⟨some "0xbbbb", some "B", some (.num 18)⟩, "pid"⟩,
        none, some ⟨some [.dict ⟨some 50, some 2, none⟩], none⟩, "Balancer",
        none, none⟩
      .AtoB 1 none 50 ⟨none, 200⟩
      ⟨fun s => .val s,
        ⟨.ok 1, .val 0, .val 0, .val 0, .val 0, .val (), .val (), .val "a",
          .val 1, .val 0, .val (), .val (), .val "h"⟩, .raise, ⟨.fail, .fail⟩⟩
      ⟨some ⟨some "0xaaaa", some "A", some (.num 18)⟩,
        some ⟨some "0xbbbb", some "B", some (.num 18)⟩, "pid"⟩
      ⟨some "0xaaaa", some "A", some (.num 18)⟩
      ⟨some "0xbbbb", some "B", some (.num 18)⟩
      ⟨some "0xaaaa", some "A", some (.num 18)⟩
      ⟨some "0xbbbb", some "B", some (.num 18)⟩
      "0xaaaa" "0xbbbb"
      ⟨some [.dict ⟨some 50, some 2, none⟩], none⟩
      ⟨some 50, some 2, none⟩
      rfl rfl rfl rfl (by decide) (by decide) rfl rfl).1 (by decide) (by decide)
  · exact C10_protocol_routing.1 "pancakeswap_v2" |>.mpr (by decide)

/-- Any caught body yields a normal return. -/
theorem catchToNone_ret (o : Outcome (Option String)) :
    ∃ r, catchToNone o = .ret r := by
  cases o <;> exact ⟨_, rfl⟩

/-- C7 counterexample: with an input token address that
`to_checksum_address` rejects (the oracle returns `raise`, as eth_utils does
for a non-hex string such as `"zzz"`), the V2 executor raises — the `path`
construction happens before its `try` — so it neither returns a hash nor
`None`. -/
theorem C7_counterexample :
    execute_swap_v2 "zzz" "0xbbbb" 1 1 ⟨none, 200⟩ none
      (fun _ => Outcome.raise)
      ⟨.ok 1, .val 0, .val 0, .val 0, .val 0, .val (), .val (), .val "a",
        .val 1, .val 0, .val (), .val (), .val "h"⟩ = .raise ∧
    ∀ r, execute_swap_v2 "zzz" "0xbbbb" 1 1 ⟨none, 200⟩ none
      (fun _ => Outcome.raise)
      ⟨.ok 1, .val 0, .val 0, .val 0, .val 0, .val (), .val (), .val "a",
        .val 1, .val 0, .val (), .val (), .val "h"⟩ ≠ .ret r := by
  refine ⟨rfl, fun r h => ?_⟩
  simp [execute_swap_v2] at h

/-- C7 (amended): the executors map outcomes to returns exactly.  With both
token addresses accepted by `to_checksum_address`, the V2 executor returns
the broadcast's hash when the balance/approval gate passes and every
nonce/build/sign/broadcast step succeeds, returns `None` when the gate
reports a validation failure, and returns `None` when the gate or any later
step inside the `try` raises — so it always returns, never raises, under
valid addresses.  The V3 executor satisfies the same three-way mapping and
always returns with no precondition at all (its checksum calls sit inside
the `try`).  And `execute_trade` returns `None` (no trade) for a
fully-validated event whose protocol name matches no known identifier.
Only an invalid address given to the V2 executor escapes as an exception
(see the counterexample). -/
theorem C7_executor_no_raise :
    (∀ (tin tout : String) (ain amin : ℤ) (cfg : GasManagerCfg)
        (stream : Option ℤ) (checksum : String → Outcome String)
        (env : SwapEnv),
      checksum tin ≠ .raise → checksum tout ≠ .raise →
      ∃ r, execute_swap_v2 tin tout ain amin cfg stream checksum env = .ret r) ∧
    (∀ (tin tout : String) (ain amin : ℤ) (cfg : GasManagerCfg)
        (stream : Option ℤ) (checksum : String → Outcome String)
        (env : SwapEnv) (s1 s2 h : String) (n : ℤ),
      checksum tin = .val s1 → checksum tout = .val s2 →
      swapGate tin ain cfg stream checksum env = .val true →
      env.swapNonce = .val n → env.swapBuild = .val () →
      env.swapSign = .val () → env.swapSend = .val h →
      execute_swap_v2 tin tout ain amin cfg stream checksum env =
        .ret (some h)) ∧
    (∀ (tin tout : String) (ain amin : ℤ) (cfg : GasManagerCfg)
        (stream : Option ℤ) (checksum : String → Outcome String)
        (env : SwapEnv) (s1 s2 : String),
      checksum tin = .val s1 → checksum tout = .val s2 →
      swapGate tin ain cfg stream checksum env = .val false →
      execute_swap_v2 tin tout ain amin cfg stream checksum env = .ret none) ∧
    (∀ (tin tout : String) (ain amin : ℤ) (cfg : GasManagerCfg)
        (stream : Option ℤ) (checksum : String → Outcome String)
        (env : SwapEnv) (s1 s2 : String),
      checksum tin = .val s1 → checksum tout = .val s2 →
      (swapGate tin ain cfg stream checksum env = .raise ∨
        env.swapNonce = .raise ∨ env.swapBuild = .raise ∨
        env.swapSign = .raise ∨ env.swapSend = .raise) →
      execute_swap_v2 tin tout ain amin cfg stream checksum env = .ret none) ∧
    (∀ (tin tout : String) (ain amin fee : ℤ) (cfg : GasManagerCfg)
        (stream : Option ℤ) (checksum : String → Outcome String)
        (env : SwapEnv),
      ∃ r, execute_swap_v3 tin tout ain amin fee cfg stream checksum env = .ret r) ∧
    (∀ (tin tout : String) (ain amin fee : ℤ) (cfg : GasManagerCfg)
        (stream : Option ℤ) (checksum : String → Outcome String)
        (env : SwapEnv) (s1 s2 h : String) (n : ℤ),
      checksum tin = .val s1 → checksum tout = .val s2 →
      swapGate tin ain cfg stream checksum env = .val true →
      env.swapNonce = .val n → env.swapBuild = .val () →
      env.swapSign = .val () → env.swapSend = .val h →
      execute_swap_v3 tin tout ain amin fee cfg stream checksum env =
        .ret (some h)) ∧
    (∀ (tin tout : String) (ain amin fee : ℤ) (cfg : GasManagerCfg)
        (stream : Option ℤ) (checksum : String → Outcome String)
        (env : SwapEnv),
      swapGate tin ain cfg stream checksum env = .val false →
      execute_swap_v3 tin tout ain amin fee cfg stream checksum env = .ret none) ∧
    (∀ (tin tout : String) (ain amin fee : ℤ) (cfg : GasManagerCfg)
        (stream : Option ℤ) (checksum : String → Outcome String)
        (env : SwapEnv),
      (swapGate tin ain cfg stream checksum env = .raise ∨
        checksum tin = .raise ∨ checksum tout = .raise ∨
        env.swapNonce = .raise ∨ env.swapBuild = .raise ∨
        env.swapSign = .raise ∨ env.swapSend = .raise) →
      execute_swap_v3 tin tout ain amin fee cfg stream checksum env = .ret none) ∧
    (∀ (ev : PoolEvent) (direction : Dir) (amount_in : ℚ) (sl : Option ℤ)
      (dsl : ℤ) (cfg : GasManagerCfg) (env : TradeEnv) pool ca cb tin tout
      tin_addr tout_addr pt (pe : PriceEntry),
      ev.pool = some pool → pool.currencyA = some ca → pool.currencyB = some cb →
      (match direction with
        | Dir.AtoB => (ca, cb)
        | Dir.BtoA => (cb, ca)) = (tin, tout) →
      get_token_address tin env.checksum = some tin_addr →
      get_token_address tout env.checksum = some tout_addr →
      ev.poolPriceTable = some pt →
      get_price_for_slippage pt direction (sl.getD dsl) = some (.dict pe) →
      routeProtocol (strLower ev.protocolName) = none →
      execute_trade ev direction amount_in sl dsl cfg env = .ok none) := by
  refine ⟨?_, ?_, ?_, ?_, ?_, ?_, ?_, ?_, ?_⟩
  · intro tin tout ain amin cfg stream checksum env hin hout
    unfold execute_swap_v2
    rcases hcin : checksum tin with s | -
    · rcases hcout : checksum tout with s2 | -
      · exact catchToNone_ret _
      · exact absurd hcout hout
    · exact absurd hcin hin
  · intro tin tout ain amin cfg stream checksum env s1 s2 h n hcin hcout hgate
      hn hb hs hsend
    simp [execute_swap_v2, uniswapV2_try_body, hcin, hcout, hgate, hn, hb, hs,
      hsend, Outcome.bind, catchToNone]
  · intro tin tout ain amin cfg stream checksum env s1 s2 hcin hcout hgate
    simp [execute_swap_v2, uniswapV2_try_body, hcin, hcout, hgate,
      Outcome.bind, catchToNone]
  · intro tin tout ain amin cfg stream checksum env s1 s2 hcin hcout hraise
    simp only [execute_swap_v2, hcin, hcout]
    rcases hg : swapGate tin ain cfg stream checksum env with b | - <;>
      rcases hn : env.swapNonce with n | - <;>
      rcases hb : env.swapBuild with u | - <;>
      rcases hs : env.swapSign with v | - <;>
      rcases hd : env.swapSend with h | - <;>
      first
        | (cases b <;>
            simp_all [uniswapV2_try_body, Outcome.bind, catchToNone])
        | simp_all [uniswapV2_try_body, Outcome.bind, catchToNone]
  · intro tin tout ain amin fee cfg stream checksum env
    exact catchToNone_ret _
  · intro tin tout ain amin fee cfg stream checksum env s1 s2 h n hcin hcout
      hgate hn hb hs hsend
    simp [execute_swap_v3, hcin, hcout, hgate, hn, hb, hs, hsend,
      Outcome.bind, catchToNone]
  · intro tin tout ain amin fee cfg stream checksum env hgate
    simp [execute_swap_v3, hgate, Outcome.bind, catchToNone]
  · intro tin tout ain amin fee cfg stream checksum env hraise
    unfold execute_swap_v3
    rcases hg : swapGate tin ain cfg stream checksum env with b | - <;>
      rcases hcin : checksum tin with s1 | - <;>
      rcases hcout : checksum tout with s2 | - <;>
      rcases hn : env.swapNonce with n | - <;>
      rcases hb : env.swapBuild with u | - <;>
      rcases hs : env.swapSign with v | - <;>
      rcases hd : env.swapSend with h | - <;>
      first
        | (cases b <;> simp_all [Outcome.bind, catchToNone])
        | simp_all [Outcome.bind, catchToNone]
  · intro ev direction amount_in sl dsl cfg env pool ca cb tin tout tin_addr
      tout_addr pt pe hpool hca hcb hpair htin htout hpt hpe hroute
    exact (execute_trade_routing ev direction amount_in sl dsl cfg env pool ca
      cb tin tout tin_addr tout_addr pt pe hpool hca hcb hpair htin htout hpt
      hpe).1 hroute

/-- Witness for C7: on concrete calls with valid checksums the V2 executor
returns exactly the broadcast hash `"h"` when every check and step succeeds,
and returns `None` on a validation failure (token balance 0 against an
amount of 5); the V3 executor returns `None` when its checksum oracle
raises inside the `try`; and the concrete unsupported-protocol event from
the C10 setting yields `None`. -/
theorem C7_witness :
    execute_swap_v2 "0xaaaa" "0xbbbb" 5 1 ⟨none, 200⟩ none (fun s => .val s)
      ⟨.ok 1, .val 1000000000000000000, .val 100, .val 100, .val 0, .val (),
        .val (), .val "a", .val 1, .val 7, .val (), .val (), .val "h"⟩ =
      .ret (some "h") ∧
    execute_swap_v2 "0xaaaa" "0xbbbb" 5 1 ⟨none, 200⟩ none (fun s => .val s)
      ⟨.ok 1, .val 0, .val 0, .val 0, .val 0, .val (), .val (), .val "a",
        .val 1, .val 0, .val (), .val (), .val "h"⟩ = .ret none ∧
    execute_swap_v3 "0xaaaa" "0xbbbb" 5 1 3000 ⟨none, 200⟩ none
      (fun _ => Outcome.raise)
      ⟨.ok 1, .val 0, .val 0, .val 0, .val 0, .val (), .val (), .val "a",
        .val 1, .val 0, .val (), .val (), .val "h"⟩ = .ret none ∧
    execute_trade
      ⟨some ⟨some ⟨some "0xaaaa", some "A", some (.num 18)⟩,
        some ⟨some "0xbbbb", some "B", some (.num 18)⟩, "pid"⟩,
        none, some ⟨some [.dict ⟨some 50, some 2, none⟩], none⟩, "sushi",
        none, none⟩
      .AtoB 1 none 50 ⟨none, 200⟩
      ⟨fun s => .val s,
        ⟨.ok 1, .val 0, .val 0, .val 0, .val 0, .val (), .val (), .val "a",
          .val 1, .val 0, .val (), .val (), .val "h"⟩, .raise, ⟨.fail, .fail⟩⟩ =
      .ok none := by
  have hgate1 : swapGate "0xaaaa" 5 ⟨none, 200⟩ none (fun s => .val s)
      ⟨.ok 1, .val 1000000000000000000, .val 100, .val 100, .val 0, .val (),
        .val (), .val "a", .val 1, .val 7, .val (), .val (), .val "h"⟩ =
      .val true := by
    simp only [swapGate]
    rw [if_neg (by decide)]
    norm_num [check_and_approve_token, get_gas_price, get_gas_price_network,
      toWeiGwei, Outcome.bind]
  have hgate2 : swapGate "0xaaaa" 5 ⟨none, 200⟩ none (fun s => .val s)
      ⟨.ok 1, .val 0, .val 0, .val 0, .val 0, .val (), .val (), .val "a",
        .val 1, .val 0, .val (), .val (), .val "h"⟩ = .val false := by
    simp only [swapGate]
    rw [if_neg (by decide)]
    norm_num [check_and_approve_token, Outcome.bind]
  refine ⟨C7_executor_no_raise.2.1 "0xaaaa" "0xbbbb" 5 1 ⟨none, 200⟩ none
      (fun s => .val s) _ "0xaaaa" "0xbbbb" "h" 7 rfl rfl hgate1 rfl rfl rfl
      rfl,
    C7_executor_no_raise.2.2.1 "0xaaaa" "0xbbbb" 5 1 ⟨none, 200⟩ none
      (fun s => .val s) _ "0xaaaa" "0xbbbb" rfl rfl hgate2,
    C7_executor_no_raise.2.2.2.2.2.2.2.1 "0xaaaa" "0xbbbb" 5 1 3000
      ⟨none, 200⟩ none (fun _ => Outcome.raise) _ (Or.inr (Or.inl rfl)),
    C7_executor_no_raise.2.2.2.2.2.2.2.2
      ⟨some ⟨some ⟨some "0xaaaa", some "A", some (.num 18)⟩,
        some ⟨some "0xbbbb", some "B", some (.num 18)⟩, "pid"⟩,
        none, some ⟨some [.dict ⟨some 50, some 2, none⟩], none⟩, "sushi",
        none, none⟩
      .AtoB 1 none 50 ⟨none, 200⟩
      ⟨fun s => .val s,
        ⟨.ok 1, .val 0, .val 0, .val 0, .val 0, .val (), .val (), .val "a",
          .val 1, .val 0, .val (), .val (), .val "h"⟩, .raise, ⟨.fail, .fail⟩⟩
      ⟨some ⟨some "0xaaaa", some "A", some (.num 18)⟩,
        some ⟨some "0xbbbb", some "B", some (.num 18)⟩, "pid"⟩
      ⟨some "0xaaaa", some "A", some (.num 18)⟩
      ⟨some "0xbbbb", some "B", some (.num 18)⟩
      ⟨some "0xaaaa", some "A", some (.num 18)⟩
      ⟨some "0xbbbb", some "B", some (.num 18)⟩
      "0xaaaa" "0xbbbb"
      ⟨some [.dict ⟨some 50, some 2, none⟩], none⟩
      ⟨some 50, some 2, none⟩
      rfl rfl rfl rfl (by decide) (by decide) rfl rfl (by decide)⟩

/-- With an open position on the books, `should_trade` declines. -/
theorem shouldTrade_open_false {s : StratState} {ev : PoolEvent} {now : ℚ}
    (h : 0 < openCount s.openPositions) : should_trade s ev now = false := by
  simp [should_trade, h]

/-- Counting open positions distributes over append. -/
theorem openCount_append (xs ys : List Position) :
    openCount (xs ++ ys) = openCount xs + openCount ys := by
  simp [openCount, List.filter_append]

/-- Open-position count of a cons cell. -/
theorem openCount_cons (p : Position) (l : List Position) :
    openCount (p :: l) = (if p.status = .opn then 1 else 0) + openCount l := by
  by_cases h : p.status = .opn <;>
    simp [openCount, List.filter_cons, h, Nat.add_comm]

/-- `execute_strategy` either leaves the position list unchanged, or — only
from a gate-passing state, hence with zero open positions — appends exactly
one new open position. -/
theorem execute_strategy_positions (s : StratState) (ev : PoolEvent)
    (env : StratEnv) :
    (execute_strategy s ev env).1.openPositions = s.openPositions ∨
    (openCount s.openPositions = 0 ∧ ∃ pos : Position, pos.status = .opn ∧
      (execute_strategy s ev env).1.openPositions = s.openPositions ++ [pos]) := by
  by_cases hst : should_trade s ev env.now = true
  · have hzero : openCount s.openPositions = 0 := by
      by_contra hne
      rw [shouldTrade_open_false (Nat.pos_of_ne_zero hne)] at hst
      cases hst
    unfold execute_strategy
    simp only [hst, Bool.not_true, Bool.false_eq_true, if_false]
    split
    · exact Or.inl rfl
    · split
      · split
        · split
          · split
            · refine Or.inr ⟨hzero, _, ?_, rfl⟩
              rfl
            · exact Or.inl rfl
          · exact Or.inl rfl
        · exact Or.inl rfl
        · exact Or.inl rfl
      · exact Or.inl rfl
  · simp only [Bool.not_eq_true] at hst
    unfold execute_strategy
    simp [hst]

/-- A due position is an open one. -/
theorem isDue_opn {cb B : ℤ} {p : Position} (h : isDue cb B p = true) :
    p.status = .opn := by
  simp only [isDue, Bool.and_eq_true, beq_iff_eq] at h
  exact h.1

/-- The close pass never increases the number of open positions. -/
theorem openCount_closePass_le (cb B : ℤ) (envs : ℕ → CloseEnv) :
    ∀ (l : List Position) (k), openCount (closePass cb B envs l k) ≤ openCount l := by
  intro l
  induction l with
  | nil => intro k; simp [closePass]
  | cons p rest ih =>
    intro k
    by_cases hd : isDue cb B p = true
    · simp only [closePass, hd, if_true]
      rw [openCount_cons, openCount_cons, isDue_opn hd, if_pos rfl]
      have hc : (if (close_step p (envs k)).1.status = .opn then 1 else 0) ≤ 1 := by
        split <;> omega
      have := ih (k + 1)
      omega
    · simp only [Bool.not_eq_true] at hd
      simp only [closePass, hd, Bool.false_eq_true, if_false]
      rw [openCount_cons, openCount_cons]
      have := ih k
      omega

/-- Filtering retained statuses cannot increase the open-position count. -/
theorem openCount_filter_le (q : Position → Bool) (l : List Position) :
    openCount (l.filter q) ≤ openCount l :=
  List.Sublist.length_le (List.Sublist.filter _ (List.filter_sublist l))

/-- A position that is not due passes through the close pass untouched. -/
theorem mem_closePass_of_not_due {cb B : ℤ} {envs : ℕ → CloseEnv} {p : Position}
    (hd : isDue cb B p = false) :
    ∀ (l : List Position) (k), p ∈ l → p ∈ closePass cb B envs l k := by
  intro l
  induction l with
  | nil => intro k h; cases h
  | cons q rest ih =>
    intro k hm
    rcases List.mem_cons.mp hm with rfl | hm2
    · simp only [closePass, hd, Bool.false_eq_true, if_false]
      exact List.mem_cons_self _ _
    · simp only [closePass]
      split
      · exact List.mem_cons_of_mem _ (ih (k + 1) hm2)
      · exact List.mem_cons_of_mem _ (ih k hm2)

/-- C1: the single-open-position invariant.  With any open position on the
books `should_trade` returns false and `execute_strategy` returns `None`
leaving the state untouched; `execute_strategy` preserves `openCount ≤ 1`
(it appends at most one open position, and only from a state with none);
and `check_and_close_positions` never increases the open count, hence also
preserves the invariant. -/
theorem C1_single_open_position :
    (∀ (s : StratState) (ev : PoolEvent) (now : ℚ),
      0 < openCount s.openPositions → should_trade s ev now = false) ∧
    (∀ (s : StratState) (ev : PoolEvent) (env : StratEnv),
      0 < openCount s.openPositions →
      execute_strategy s ev env = (s, .ok none)) ∧
    (∀ (s : StratState) (ev : PoolEvent) (env : StratEnv),
      openCount s.openPositions ≤ 1 →
      openCount (execute_strategy s ev env).1.openPositions ≤ 1) ∧
    (∀ (s : StratState) (B : ℤ) (envs : ℕ → CloseEnv),
      openCount (check_and_close_positions s B envs).openPositions ≤
        openCount s.openPositions) ∧
    (∀ (s : StratState) (B : ℤ) (envs : ℕ → CloseEnv),
      openCount s.openPositions ≤ 1 →
      openCount (check_and_close_positions s B envs).openPositions ≤ 1) := by
  have hclose : ∀ (s : StratState) (B : ℤ) (envs : ℕ → CloseEnv),
      openCount (check_and_close_positions s B envs).openPositions ≤
        openCount s.openPositions := by
    intro s B envs
    unfold check_and_close_positions
    split
    · exact le_refl _
    · exact le_trans (openCount_filter_le _ _) (openCount_closePass_le _ _ _ _ _)
  refine ⟨fun s ev now h => shouldTrade_open_false h, ?_, ?_, hclose,
    fun s B envs h => le_trans (hclose s B envs) h⟩
  · intro s ev env h
    unfold execute_strategy
    rw [shouldTrade_open_false h]
    simp
  · intro s ev env hle
    rcases execute_strategy_positions s ev env with h | ⟨hz, pos, hst, happ⟩
    · rw [h]
      exact hle
    · rw [happ, openCount_append, hz, openCount_cons]
      simp [hst, openCount]

/-- The pool event used by the concrete scenarios below (content is
irrelevant to position handling). -/
def exampleEvent : PoolEvent := ⟨none, none, none, "", none, none⟩

/-- A position opened at block 100 with an invalid recorded output of 0. -/
def examplePosition : Position :=
  ⟨100, .AtoB, .BtoA, exampleEvent, 0, "pid", "A", "B", 50, .opn, none, none⟩

/-- An enabled strategy state holding exactly the block-100 position, with
`close_blocks = 3`. -/
def exampleState : StratState :=
  ⟨100, 50, none, true, 0, 5, 0, 0, 0, 3, [examplePosition]⟩

/-- Witness for C1: with the one open position on the books, `should_trade`
declines, `execute_strategy` is a no-op returning `None`, and both
operations keep the open count at one. -/
theorem C1_witness :
    should_trade exampleState exampleEvent 1000 = false ∧
    execute_strategy exampleState exampleEvent ⟨1000, 1001, .ok none⟩ =
      (exampleState, .ok none) ∧
    openCount (execute_strategy exampleState exampleEvent
      ⟨1000, 1001, .ok none⟩).1.openPositions ≤ 1 ∧
    openCount (check_and_close_positions exampleState 101
      (fun _ => ⟨some 50, .ok none⟩)).openPositions ≤ 1 :=
  ⟨C1_single_open_position.1 exampleState exampleEvent 1000 (by decide),
   C1_single_open_position.2.1 exampleState exampleEvent ⟨1000, 1001, .ok none⟩
     (by decide),
   C1_single_open_position.2.2.1 exampleState exampleEvent
     ⟨1000, 1001, .ok none⟩ (by decide),
   C1_single_open_position.2.2.2.2 exampleState 101 (fun _ => ⟨some 50, .ok none⟩)
     (by decide)⟩

/-- The specification's resolution rule coincides with the source's
`resolveCloseAmount` followed by the final non-positivity guard. -/
theorem resolveCloseAmountSpec_eq (r : ℚ) (l : Option ℚ) :
    resolveCloseAmountSpec r l =
      match resolveCloseAmount r l with
      | none => none
      | some a => if a ≤ 0 then none else some a := rfl

/-- C2: a close is attempted only for a due position
(`currentBlock - openBlock >= closeBlocks`; positions not yet due survive a
tick untouched and still open), and for a due position the amount submitted
to the closing swap is exactly `resolveCloseAmountSpec` of the recorded
amount and the live balance — with `close_failed` and no swap when it
resolves to nothing; the documented scenario holds: opened at block 100
with threshold 3, a tick at 102 is not due, a tick at 103 is due, and
recorded 0 with live balance 50 resolves to 50. -/
theorem C2_close_resolution :
    (∀ (s : StratState) (B : ℤ) (envs : ℕ → CloseEnv) (p : Position),
      s.enabled = true → p ∈ s.openPositions → p.status = .opn →
      B - p.openBlock < s.closeBlocks →
      p ∈ (check_and_close_positions s B envs).openPositions) ∧
    (∀ (p : Position) (env : CloseEnv),
      (close_step p env).2 =
        resolveCloseAmountSpec p.amountOut env.tokenBalance ∧
      ((close_step p env).2 = none →
        (close_step p env).1.status = .closeFailed)) ∧
    (∀ (s : StratState) (B : ℤ) (envs : ℕ → CloseEnv) (p : Position),
      s.enabled = true → s.openPositions = [p] →
      isDue s.closeBlocks B p = true →
      (check_and_close_positions s B envs).openPositions =
        if (close_step p (envs 0)).1.status = .closed then []
        else [(close_step p (envs 0)).1]) ∧
    (isDue 3 102 examplePosition = false ∧
     isDue 3 103 examplePosition = true ∧
     (close_step examplePosition ⟨some 50, .ok none⟩).2 = some 50 ∧
     resolveCloseAmountSpec 0 (some 50) = some 50) := by
  refine ⟨?_, ?_, ?_, ?_, ?_, ?_, ?_⟩
  · intro s B envs p hen hmem hopn hlt
    unfold check_and_close_positions
    simp only [hen, Bool.not_true, Bool.false_eq_true, if_false]
    have hnd : isDue s.closeBlocks B p = false := by
      simp only [isDue, hopn, beq_self_eq_true, Bool.true_and,
        decide_eq_false_iff_not, not_le]
      omega
    refine List.mem_filter.mpr ⟨mem_closePass_of_not_due hnd s.openPositions 0 hmem, ?_⟩
    simp [hopn]
  · intro p env
    constructor
    · rw [resolveCloseAmountSpec_eq]
      rcases hres : resolveCloseAmount p.amountOut env.tokenBalance with - | a
      · simp [close_step, hres]
      · by_cases ha : a ≤ 0
        · simp [close_step, hres, ha]
        · rcases htr : env.tradeResult with e | r
          · simp [close_step, hres, ha, htr]
          · rcases r with - | r
            · simp [close_step, hres, ha, htr]
            · rcases hrs : r.status <;> simp [close_step, hres, ha, htr, hrs]
    · intro hnone
      rcases hres : resolveCloseAmount p.amountOut env.tokenBalance with - | a
      · simp [close_step, hres]
      · by_cases ha : a ≤ 0
        · simp [close_step, hres, ha]
        · exfalso
          rcases htr : env.tradeResult with e | r
          · simp [close_step, hres, ha, htr] at hnone
          · rcases r with - | r
            · simp [close_step, hres, ha, htr] at hnone
            · rcases hrs : r.status <;>
                simp [close_step, hres, ha, htr, hrs] at hnone
  · intro s B envs p hen hops hdue
    unfold check_and_close_positions
    simp only [hen, Bool.not_true, Bool.false_eq_true, if_false, hops]
    simp only [closePass, hdue, if_true]
    rcases hq : (close_step p (envs 0)).1.status <;>
      (simp [List.filter, hq]; try rfl)
  · decide
  · decide
  · have h50 : resolveCloseAmount 0 (some 50) = some 50 := by
      unfold resolveCloseAmount
      rw [if_pos (by norm_num [strategyEps])]
      norm_num
    norm_num [close_step, examplePosition, h50]
  · have h50 : resolveCloseAmount 0 (some 50) = some 50 := by
      unfold resolveCloseAmount
      rw [if_pos (by norm_num [strategyEps])]
      norm_num
    rw [resolveCloseAmountSpec_eq]
    norm_num [h50]

/-- Witness for C2: the block-100 position in the enabled threshold-3 state
survives a tick at block 102 still open, and at block 103 the singleton
close pass applies `close_step`, whose submitted amount matches the
specification's resolution (50 from a recorded 0 and live balance 50). -/
theorem C2_witness :
    examplePosition ∈ (check_and_close_positions exampleState 102
      (fun _ => ⟨some 50, .ok none⟩)).openPositions ∧
    (check_and_close_positions exampleState 103
      (fun _ => ⟨some 50, .ok none⟩)).openPositions =
      (if (close_step examplePosition ⟨some 50, .ok none⟩).1.status = .closed
        then [] else [(close_step examplePosition ⟨some 50, .ok none⟩).1]) ∧
    (close_step examplePosition ⟨some 50, .ok none⟩).2 =
      resolveCloseAmountSpec examplePosition.amountOut (some 50) := by
  refine ⟨C2_close_resolution.1 exampleState 102 (fun _ => ⟨some 50, .ok none⟩)
      examplePosition rfl (by simp [exampleState]) rfl (by decide),
    C2_close_resolution.2.2.1 exampleState 103 (fun _ => ⟨some 50, .ok none⟩)
      examplePosition rfl rfl (by decide),
    (C2_close_resolution.2.1 examplePosition ⟨some 50, .ok none⟩).1⟩

end PoolTrader







